import Mathlib

/-!
Verification of `Examples/AdvancedFittingMethod/AdvancedFittingMethod.cpp`.

A shallow embedding of the demonstration driver `main` and of the small part
of the library interface it exercises (dates, the basket's loss-model slot,
the base-correlation surface), followed by the properties proved about it.
-/

namespace QuantLib

/-! ## Dates, periods and calendars (library collaborators of `main`) -/

/-- Time units of a `Period`. -/
inductive TimeUnit where
  | Days
  | Weeks
  | Months
  | Years
  deriving DecidableEq, Repr

/-- A `Period(n, units)`. -/
structure Period where
  length : Nat
  units : TimeUnit
  deriving DecidableEq, Repr

/-- The two business-day conventions `main` uses (`Following` is the default of
`Calendar::adjust` and `Calendar::advance`). -/
inductive BusinessDayConvention where
  | Following
  | Unadjusted
  deriving DecidableEq, Repr

/-- A calendar date `Date(d, m, y)`. -/
structure Date where
  dayOfMonth : Nat
  month : Nat
  year : Nat
  deriving DecidableEq, Repr

def March : Nat := 3

/-- Modelled from the spec: the date collaborator is not part of the sources
("core treats dates as opaque ordered points"); leap years follow the
Gregorian rule. -/
def isLeap (y : Nat) : Bool :=
  (y % 4 == 0 && y % 100 != 0) || y % 400 == 0

/-- Modelled from the spec: number of days of month `m` (date collaborator,
not part of the sources). -/
def monthLength (m : Nat) (leap : Bool) : Nat :=
  if m == 2 then (if leap then 29 else 28)
  else if m == 4 || m == 6 || m == 9 || m == 11 then 30
  else 31

/-- Modelled from the spec: days of the year before the first of month `m`
(date collaborator, not part of the sources). -/
def monthOffset (m : Nat) (leap : Bool) : Nat :=
  ((List.range (m - 1)).map (fun k => monthLength (k + 1) leap)).sum

/-- Modelled from the spec: serial number of 31 December of year `y - 1` in
the spreadsheet convention (date collaborator, not part of the sources). -/
def yearOffset (y : Nat) : Nat :=
  365 * (y - 1900) + ((y - 1) / 4 - (y - 1) / 100 + (y - 1) / 400 - 460) + 1

namespace Date

/-- Modelled from the spec: dates are "ordered points"; the order is that of
the serial day number (date collaborator, not part of the sources). -/
def serialNumber (d : Date) : Nat :=
  d.dayOfMonth + monthOffset d.month (isLeap d.year) + yearOffset d.year

/-- Modelled from the spec: day of the year of a date (date collaborator, not
part of the sources). -/
def dayOfYear (d : Date) : Nat :=
  d.dayOfMonth + monthOffset d.month (isLeap d.year)

/-- Modelled from the spec: weekday number of a date, `1` is Sunday, ..., `7`
is Saturday (date collaborator, not part of the sources). -/
def weekday (d : Date) : Nat :=
  let w := d.serialNumber % 7
  if w == 0 then 7 else w

/-- Modelled from the spec: the next calendar day, `d++` (date collaborator,
not part of the sources). -/
def succ (d : Date) : Date :=
  if d.dayOfMonth < monthLength d.month (isLeap d.year) then
    { d with dayOfMonth := d.dayOfMonth + 1 }
  else if d.month < 12 then
    { d with dayOfMonth := 1, month := d.month + 1 }
  else
    { dayOfMonth := 1, month := 1, year := d.year + 1 }

/-- Modelled from the spec: "today + tenor" (`Date + Period`, date
collaborator, not part of the sources): month and year steps keep the day of
the month, capped at the length of the target month. -/
def add (d : Date) (p : Period) : Date :=
  match p.units with
  | TimeUnit.Days => Nat.iterate succ p.length d
  | TimeUnit.Weeks => Nat.iterate succ (7 * p.length) d
  | TimeUnit.Months =>
      let m0 := d.month - 1 + p.length
      let y := d.year + m0 / 12
      let m := m0 % 12 + 1
      { dayOfMonth := min d.dayOfMonth (monthLength m (isLeap y)), month := m, year := y }
  | TimeUnit.Years =>
      let y := d.year + p.length
      { dayOfMonth := if d.dayOfMonth == 29 && d.month == 2 && !isLeap y then 28
                      else d.dayOfMonth,
        month := d.month, year := y }

instance : LE Date := ⟨fun a b => a.serialNumber ≤ b.serialNumber⟩

instance (a b : Date) : Decidable (a ≤ b) :=
  inferInstanceAs (Decidable (a.serialNumber ≤ b.serialNumber))

end Date

/-- Modelled from the spec: a calendar (external collaborator, not part of the
sources) is given by its business days. -/
structure Calendar where
  isBusinessDay : Date → Bool

/-- Modelled from the spec: day of the year of Easter Monday, by the Gregorian
computus (calendar collaborator, not part of the sources). -/
def easterMonday (y : Nat) : Nat :=
  let a := y % 19
  let b := y / 100
  let c := y % 100
  let d := b / 4
  let e := b % 4
  let f := (b + 8) / 25
  let g := (b - f + 1) / 3
  let h := (19 * a + b - d - g + 15) % 30
  let i := c / 4
  let k := c % 4
  let l := (32 + 2 * e + 2 * i - h - k) % 7
  let m := (a + 11 * h + 22 * l) / 451
  let month := (h + l - 7 * m + 114) / 31
  let day := (h + l - 7 * m + 114) % 31 + 1
  Date.dayOfYear { dayOfMonth := day, month := month, year := y } + 1

/-- Modelled from the spec: the `TARGET` calendar (external collaborator, not
part of the sources; the spec only names the calendar as what computes "today
+ tenor"). Closed days are those of the TARGET system: Saturdays, Sundays, New
Year, Good Friday and Easter Monday, Labour Day, Christmas and 26 December
(the last four from 2000 on), and 31 December of 1998, 1999 and 2001. -/
def TARGET : Calendar where
  isBusinessDay := fun date =>
    let w := date.weekday
    let d := date.dayOfMonth
    let dd := date.dayOfYear
    let m := date.month
    let y := date.year
    let em := easterMonday y
    !(w == 7 || w == 1
      || (d == 1 && m == 1)
      || (dd + 3 == em && y ≥ 2000)
      || (dd == em && y ≥ 2000)
      || (d == 1 && m == 5 && y ≥ 2000)
      || (d == 25 && m == 12)
      || (d == 26 && m == 12 && y ≥ 2000)
      || (d == 31 && m == 12 && (y == 1998 || y == 1999 || y == 2001)))

namespace Calendar

/-- Modelled from the spec: the first business day from `d` on, searched day
by day (calendar collaborator, not part of the sources); the search is bounded
and gives `none` when the bound is exhausted. -/
def following (cal : Calendar) : Nat → Date → Option Date
  | 0, _ => none
  | fuel + 1, d => if cal.isBusinessDay d then some d else following cal fuel d.succ

/-- Modelled from the spec: `Calendar::adjust(d, c)` (external collaborator,
not part of the sources). -/
def adjust (cal : Calendar) (d : Date) (c : BusinessDayConvention) : Option Date :=
  match c with
  | BusinessDayConvention.Unadjusted => some d
  | BusinessDayConvention.Following => cal.following 366 d

/-- Modelled from the spec: stepping forward `n` business days (calendar
collaborator, not part of the sources). -/
def advanceDays (cal : Calendar) : Nat → Date → Option Date
  | 0, d => some d
  | n + 1, d => (cal.following 366 d.succ).bind (advanceDays cal n)

/-- Modelled from the spec: `Calendar::advance(d, period, c)`, "today +
tenor" followed by the business-day adjustment (external collaborator, not
part of the sources). -/
def advance (cal : Calendar) (d : Date) (p : Period) (c : BusinessDayConvention) :
    Option Date :=
  match p.units with
  | TimeUnit.Days =>
      if p.length = 0 then cal.adjust d c else cal.advanceDays p.length d
  | _ => cal.adjust (d.add p) c

end Calendar

/-- Modelled from the spec: the day counter `Actual365Fixed` (external
collaborator, not part of the sources), "a day-count-derived
time-to-horizon (a real number of years)". -/
def Actual365Fixed {R : Type} [LinearOrderedField R] (d1 d2 : Date) : R :=
  ((d2.serialNumber : Int) - (d1.serialNumber : Int) : Int) / 365


/-! ## Exceptions and the library objects `main` builds -/

/-- What a `throw` carries: an object derived from `std::exception` (with its
`what()` text) or anything else. -/
inductive Exn where
  | std (what : String)
  | other
  deriving DecidableEq, Repr

inductive LatentModelIntegrationType where
  | GaussianQuadrature
  | Trapezoid
  deriving DecidableEq, Repr

/-- The copula policy of a latent model with its `initTraits`:
`GaussianCopulaPolicy::initTraits()` carries nothing,
`TCopulaPolicy::initTraits` carries the vector `tOrders`. -/
inductive CopulaInit where
  | Gaussian
  | StudentT (tOrders : List Int)
  deriving DecidableEq, Repr

/-- The copula policy template argument of the Monte-Carlo models. -/
inductive CopulaPolicy where
  | GaussianCopulaPolicy
  | TCopulaPolicy
  deriving DecidableEq, Repr

/-- `FlatHazardRate(settlementDays, calendar, hazardRate, dayCounter)`. -/
structure FlatHazardRate (R : Type) where
  settlementDays : Nat
  hazardRate : R
  allowsExtrapolation : Bool

/-- `NorthAmericaCorpDefaultKey(currency, seniority, graceDays, amount)`. -/
structure DefaultProbKey (R : Type) where
  currency : String
  seniority : String
  amount : R

/-- `Issuer(curves)`: the key/curve pairs of one issuer. -/
structure Issuer (R : Type) where
  curves : List (DefaultProbKey R × FlatHazardRate R)

/-- The latent models of `main`: `ConstantLossLatentmodel<copula>` and
`SpotRecoveryLatentModel<copula>`. -/
inductive LatentModel (R : Type) where
  | ConstantLossLM (factorWeights : List (List R)) (recoveries : List R)
      (integration : LatentModelIntegrationType) (ini : CopulaInit)
  | SpotLossLM (factorWeights : List (List R)) (recoveries : List R) (modelA : R)
      (integration : LatentModelIntegrationType) (ini : CopulaInit)

namespace LatentModel

variable {R : Type}

def factorWeights : LatentModel R → List (List R)
  | ConstantLossLM w _ _ _ => w
  | SpotLossLM w _ _ _ _ => w

def recoveries : LatentModel R → List R
  | ConstantLossLM _ r _ _ => r
  | SpotLossLM _ r _ _ _ => r

def ini : LatentModel R → CopulaInit
  | ConstantLossLM _ _ _ c => c
  | SpotLossLM _ _ _ _ c => c

end LatentModel

/-- Modelled from the spec: "implied idiosyncratic variance = 1 − Σ(weight²)"
of one row of factor loadings (the latent-model class is not part of the
sources). -/
def idiosyncraticVariance {R : Type} [LinearOrderedField R] (w : List R) : R :=
  1 - (w.map (fun x => x * x)).sum

/-- Modelled from the spec: the Latent Factor Model precondition (the
latent-model class is not part of the sources): every row of loadings has
idiosyncratic variance `≥ 0`, and a Student-t policy has degrees of freedom
`≥ 1` per factor; a violation "fails with an `InvalidModelParameters` error". -/
def LatentModel.checkParameters {R : Type} [LinearOrderedField R] (lm : LatentModel R) :
    Except Exn Unit :=
  let loadingsOk := lm.factorWeights.all (fun w => decide (0 ≤ idiosyncraticVariance w))
  let ordersOk :=
    match lm.ini with
    | CopulaInit.Gaussian => true
    | CopulaInit.StudentT tOrders => tOrders.all (fun n => decide (1 ≤ n))
  if loadingsOk && ordersOk then Except.ok ()
  else Except.error (Exn.std "InvalidModelParameters")

/-- `BaseCorrelationTermStructure<BilinearInterpolation>(settlementDays,
calendar, bdc, tenors, lossLevel, correls, dayCounter)`; `correls` holds the
values of the quotes, one row per tenor. -/
structure BaseCorrelationTermStructure (R : Type) where
  settlementDays : Nat
  calendar : Calendar
  bdc : BusinessDayConvention
  tenors : List Period
  lossLevel : List R
  correls : List (List R)

/-- The loss-model strategies `main` attaches to the basket. -/
inductive DefaultLossModel (R : Type) where
  | GaussianLHPLossModel (correl : R) (recoveries : List R)
  | GaussianBinomialLossModel (lm : LatentModel R)
  | TBinomialLossModel (lm : LatentModel R)
  | IHGaussPoolLossModel (lm : LatentModel R) (nBuckets : Nat)
  | RandomDefaultLM (copula : CopulaPolicy) (lm : LatentModel R) (recoveries : List R)
      (nSims : Nat) (accuracy : R) (seed : Nat)
  | RandomLossLM (copula : CopulaPolicy) (lm : LatentModel R)
      (nSims : Nat) (accuracy : R) (seed : Nat)
  | GaussianLHPFlatBCLM (correlTS : BaseCorrelationTermStructure R) (recoveries : List R)
      (ini : CopulaInit)

/-- `Basket(refDate, names, notionals, pool, attachment, detachment)`: the
constructor arguments. -/
structure BasketData (R : Type) where
  refDate : Date
  names : List String
  notionals : List R
  pool : List (String × Issuer R × DefaultProbKey R)
  attachment : R
  detachment : R

/-- The basket with its slot for the active loss model. -/
structure Basket (R : Type) extends BasketData R where
  lossModel : Option (DefaultLossModel R)

/-- The part of the library that the sources do not contain, taken as a
parameter. -/
structure Library (R : Type) where
  /-- `std::sqrt`. -/
  sqrt : R → R
  /-- The exception, if any, thrown by the library call made by the statement
  at a given position of the body of `main`. -/
  fault : Nat → Option Exn
  /-- The numerical algorithm of each loss model on a basket at a date. -/
  lossModel : DefaultLossModel R → BasketData R → Date → Except Exn R
  /-- `timer.elapsed()`, in seconds. -/
  elapsed : ℚ

/-! ## The base-correlation surface -/

section Surface

variable {R : Type} [LinearOrderedField R]

/-- Entry `m[i][j]` of a vector of vectors. -/
def entry (m : List (List R)) (i j : Nat) : R := (m.getD i []).getD j 0

/-- Modelled from the spec: index of the grid cell used for `x` by the
interpolation (the interpolation class is not part of the sources). -/
def locate (xs : List R) (x : R) : Nat :=
  if x < xs.getD 0 0 then 0
  else if xs.getD (xs.length - 1) 0 < x then xs.length - 2
  else (xs.dropLast.filter (fun a => decide (a ≤ x))).length - 1

/-- Modelled from the spec: "interpolation is bilinear in (tenor, loss%)" on
the grid `xs × ys` with values `z[i][j]` at `(xs[i], ys[j])`; it "fails with
`OutOfGridRange` if extrapolation is disabled and the query point falls
outside the grid" (the interpolation class is not part of the sources). -/
def bilinear (xs ys : List R) (z : List (List R)) (x y : R) : Except Exn R :=
  if xs.getD 0 0 ≤ x ∧ x ≤ xs.getD (xs.length - 1) 0
      ∧ ys.getD 0 0 ≤ y ∧ y ≤ ys.getD (ys.length - 1) 0 then
    let i := locate xs x
    let j := locate ys y
    let t := (x - xs.getD i 0) / (xs.getD (i + 1) 0 - xs.getD i 0)
    let u := (y - ys.getD j 0) / (ys.getD (j + 1) 0 - ys.getD j 0)
    Except.ok ((1 - t) * (1 - u) * entry z i j + t * (1 - u) * entry z (i + 1) j
      + (1 - t) * u * entry z i (j + 1) + t * u * entry z (i + 1) (j + 1))
  else Except.error (Exn.std "OutOfGridRange")

namespace BaseCorrelationTermStructure

/-- Modelled from the spec: reference date of the surface, the evaluation
date moved by the settlement days (the term-structure class is not part of
the sources). -/
def referenceDate (s : BaseCorrelationTermStructure R) (today : Date) : Option Date :=
  s.calendar.advance today ⟨s.settlementDays, TimeUnit.Days⟩ BusinessDayConvention.Following

/-- Modelled from the spec: the tenor nodes of the surface, the reference date
advanced by each tenor under the surface's business-day convention. -/
def trancheDates (s : BaseCorrelationTermStructure R) (today : Date) : Option (List Date) :=
  (s.referenceDate today).bind fun ref =>
    s.tenors.mapM (fun p => s.calendar.advance ref p s.bdc)

/-- Modelled from the spec: "Looks up/interpolates an implied correlation
value from the Base-Correlation Surface at (horizon tenor, cumulative loss
percentage)", with extrapolation disabled. -/
def correlation (s : BaseCorrelationTermStructure R) (today d : Date) (lossLevel : R) :
    Except Exn R :=
  match s.referenceDate today, s.trancheDates today with
  | some ref, some nodes =>
      bilinear (nodes.map (fun n => Actual365Fixed ref n)) s.lossLevel s.correls
        (Actual365Fixed ref d) lossLevel
  | _, _ => Except.error (Exn.std "date out of range")

end BaseCorrelationTermStructure

end Surface

/-! ## The basket and its loss-model slot -/

section BasketOps

variable {R : Type} [LinearOrderedField R]

/-- Modelled from the spec: what a loss model computes (the loss-model classes
are not part of the sources). The base-correlation strategy looks the
correlation up at (horizon, detachment) and "feeds the resulting ρ into the
LHP strategy as if it were a directly-specified correlation"; every other
strategy is the library's numerical algorithm. -/
def DefaultLossModel.expectedTrancheLoss (lib : Library R) (today : Date)
    (m : DefaultLossModel R) (b : BasketData R) (d : Date) : Except Exn R :=
  match m with
  | DefaultLossModel.GaussianLHPFlatBCLM correlTS recoveries _ =>
      match correlTS.correlation today d b.detachment with
      | Except.error e => Except.error e
      | Except.ok rho =>
          lib.lossModel (DefaultLossModel.GaussianLHPLossModel rho recoveries) b d
  | m => lib.lossModel m b d

/-- Modelled from the spec: `setLossModel(strategy)` "replace[s the] active
strategy". -/
def Basket.setLossModel (b : Basket R) (m : DefaultLossModel R) : Basket R :=
  { b with lossModel := some m }

/-- Modelled from the spec: "`expectedTrancheLoss(date)` dispatches to the
active strategy". -/
def Basket.expectedTrancheLoss (lib : Library R) (today : Date) (b : Basket R) (d : Date) :
    Except Exn R :=
  match b.lossModel with
  | none => Except.error (Exn.std "no loss model set")
  | some m => m.expectedTrancheLoss lib today b.toBasketData d

end BasketOps

/-! ## Output, events and the state of a run -/

/-- One item inserted into an output stream. -/
inductive Out (R : Type) where
  | text (s : String)
  | real (x : R)
  | integer (n : Int)
  | fixed (precision : Nat) (x : ℚ)
  | endl

/-- What a run of `main` does that can be observed: insertions into
`std::cout` and `std::cerr`, and the calls made on the basket. The call
`expectedTrancheLoss` is recorded with the content of the basket's slot at the
time of the call. -/
inductive Event (R : Type) where
  | cout (o : Out R)
  | cerr (o : Out R)
  | setLossModel (m : DefaultLossModel R)
  | expectedTrancheLoss (active : Option (DefaultLossModel R)) (d : Date)

/-- State of a run: the global evaluation date, the basket `theBskt` and the
events so far. -/
structure World (R : Type) where
  evaluationDate : Option Date
  theBskt : Option (Basket R)
  events : List (Event R)

namespace World

variable {R : Type}

def init : World R := { evaluationDate := none, theBskt := none, events := [] }

def emit (w : World R) (es : List (Event R)) : World R :=
  { w with events := w.events ++ es }

end World

/-- The objects whose constructors `main` calls. -/
inductive LibObject (R : Type) where
  | curves (defTS : List (FlatHazardRate R))
  | issuers (is : List (Issuer R))
  | pool (p : List (String × Issuer R × DefaultProbKey R))
  | latentModel (lm : LatentModel R)
  | lossModel (m : DefaultLossModel R)
  | correlSurface (s : BaseCorrelationTermStructure R)

/-- The statements of the body of `main` that act on the library or on the
streams. -/
inductive Stmt (R : Type) where
  /-- `std::cout << ... ;` -/
  | cout (os : List (Out R))
  /-- `Settings::instance().evaluationDate() = d;` -/
  | setEvaluationDate (d : Date)
  /-- A constructor call of the library. -/
  | construct (obj : LibObject R)
  /-- `theBskt = boost::make_shared<Basket>(...)`. -/
  | makeBasket (b : BasketData R)
  /-- `theBskt->setLossModel(m);` -/
  | setLossModel (m : DefaultLossModel R)
  /-- `std::cout << theBskt->expectedTrancheLoss(d) << std::endl;` -/
  | coutLoss (d : Date)

section Run

variable {R : Type} [LinearOrderedField R]

/-- The exception carried by a failed result. -/
def thrown {α : Type} : Except Exn α → Option Exn
  | Except.ok _ => none
  | Except.error e => some e

/-- What `std::cout << v << std::endl` inserts once `v` has been computed;
nothing when the computation threw. -/
def printLoss : Except Exn R → List (Event R)
  | Except.ok v => [Event.cout (Out.real v), Event.cout Out.endl]
  | Except.error _ => []

/-- Modelled from the spec: the precondition check made by a constructor (the
library classes are not part of the sources); the spec gives one for latent
models only. -/
def LibObject.check : LibObject R → Except Exn Unit
  | LibObject.latentModel lm => lm.checkParameters
  | _ => Except.ok ()

/-- One statement, at position `pc` of the body: the state it leaves and the
exception it throws, if any. Insertions into `std::cout` do not throw; a
library call throws when its precondition check fails or when the library
faults at that position; an evaluation throws what the loss model throws. -/
def step (lib : Library R) (pc : Nat) (w : World R) : Stmt R → World R × Option Exn
  | Stmt.cout os => (w.emit (os.map Event.cout), none)
  | Stmt.setEvaluationDate d => ({ w with evaluationDate := some d }, none)
  | Stmt.construct obj =>
      match obj.check with
      | Except.error e => (w, some e)
      | Except.ok _ => (w, lib.fault pc)
  | Stmt.makeBasket b =>
      match lib.fault pc with
      | some e => (w, some e)
      | none => ({ w with theBskt := some { toBasketData := b, lossModel := none } }, none)
  | Stmt.setLossModel m =>
      match w.theBskt with
      | none => (w, some (Exn.std "null basket"))
      | some b =>
          match lib.fault pc with
          | some e => (w.emit [Event.setLossModel m], some e)
          | none =>
              ({ w with theBskt := some (b.setLossModel m),
                        events := w.events ++ [Event.setLossModel m] }, none)
  | Stmt.coutLoss d =>
      match w.theBskt, w.evaluationDate with
      | some b, some today =>
          let r := b.expectedTrancheLoss lib today d
          (w.emit (Event.expectedTrancheLoss b.lossModel d :: printLoss r), thrown r)
      | _, _ => (w, some (Exn.std "null basket"))

/-- The statements in sequence, from position `pc`, up to the first exception. -/
def run (lib : Library R) : Nat → List (Stmt R) → World R → World R × Option Exn
  | _, [], w => (w, none)
  | pc, s :: rest, w =>
      match step lib pc w s with
      | (w1, none) => run lib (pc + 1) rest w1
      | (w1, some e) => (w1, some e)

end Run

/-! ## The elapsed-time report at the end of `main` -/

/-- Value of a 32-bit `int` (`Integer`) computation whose exact result is `z`,
in two's complement. -/
def wrapInteger (z : Int) : Int := (z + 2 ^ 31) % 2 ^ 32 - 2 ^ 31

/-- The conversion `Integer(x)` of a `Real`: truncation towards zero, in 32
bits. -/
def toInteger (x : ℚ) : Int := wrapInteger (if 0 ≤ x then ⌊x⌋ else ⌈x⌉)

/-- The hours, minutes and seconds computed from `timer.elapsed()`:
`hours = Integer(seconds / 3600); seconds -= hours * 3600;
minutes = Integer(seconds / 60); seconds -= minutes * 60;`. -/
def elapsedSplit (elapsed : ℚ) : Int × Int × ℚ :=
  let seconds := elapsed
  let hours := toInteger (seconds / 3600)
  let seconds := seconds - (wrapInteger (hours * 3600) : Int)
  let minutes := toInteger (seconds / 60)
  let seconds := seconds - (wrapInteger (minutes * 60) : Int)
  (hours, minutes, seconds)

/-- The insertions of the "Run completed in" line. -/
def report {R : Type} (elapsed : ℚ) : List (Out R) :=
  let hours := (elapsedSplit elapsed).1
  let minutes := (elapsedSplit elapsed).2.1
  let seconds := (elapsedSplit elapsed).2.2
  [Out.text "Run completed in "]
    ++ (if hours > 0 then [Out.integer hours, Out.text " h "] else [])
    ++ (if hours > 0 ∨ minutes > 0 then [Out.integer minutes, Out.text " m "] else [])
    ++ [Out.fixed 0 seconds, Out.text " s", Out.endl]

end QuantLib

/-! ## The driver `main` -/

namespace AdvancedFittingMethod

open QuantLib

section Driver

variable (R : Type) [LinearOrderedField R]

/-- Lines 59-62. -/
def hazardRates : List R :=
  [0.001, 0.01, 0.02, 0.03, 0.04, 0.05, 0.06, 0.07, 0.08, 0.09]

/-- Lines 64-67: `"Acme" + lexical_cast<std::string>(i)` for each index. -/
def names : List String :=
  (List.range (hazardRates R).length).map (fun i => "Acme" ++ toString i)

/-- Lines 68-74: one `FlatHazardRate(0, TARGET(), hazardRates[i],
Actual365Fixed())` per rate, with extrapolation enabled. -/
def defTS : List (FlatHazardRate R) :=
  (hazardRates R).map
    (fun h => { settlementDays := 0, hazardRate := h, allowsExtrapolation := true })

/-- `NorthAmericaCorpDefaultKey(EURCurrency(), SeniorSec, Period(), 1.)`. -/
def defaultKey : DefaultProbKey R :=
  { currency := "EUR", seniority := "SeniorSec", amount := 1 }

/-- Lines 75-83. -/
def issuers : List (Issuer R) :=
  (defTS R).map (fun ts => { curves := [(defaultKey R, ts)] })

/-- Lines 85-88. -/
def thePool : List (String × Issuer R × DefaultProbKey R) :=
  ((names R).zip (issuers R)).map (fun ni => (ni.1, ni.2, defaultKey R))

/-- Lines 92-96. -/
def theBskt (todaysDate : Date) : BasketData R :=
  { refDate := todaysDate,
    names := names R,
    notionals := List.replicate (hazardRates R).length 100,
    pool := thePool R,
    attachment := 0.03,
    detachment := 0.06 }

/-- Line 102. -/
def recoveries : List R := List.replicate (hazardRates R).length 0.4

/-- Line 106. -/
def factorValue : R := 0.05

variable {R}
variable (sqrt : R → R)

/-- Lines 107-108. -/
def fctrsWeights : List (List R) :=
  List.replicate (hazardRates R).length (List.replicate 1 (sqrt (factorValue R)))

/-- Lines 111-113. -/
def lmGLHP : DefaultLossModel R :=
  DefaultLossModel.GaussianLHPLossModel
    (entry (fctrsWeights sqrt) 0 0 * entry (fctrsWeights sqrt) 0 0) (recoveries R)

/-- Lines 120-123. -/
def ktLossLM : LatentModel R :=
  LatentModel.ConstantLossLM (fctrsWeights sqrt) (recoveries R)
    LatentModelIntegrationType.GaussianQuadrature CopulaInit.Gaussian

/-- Lines 124-125. -/
def lmBinomial : DefaultLossModel R :=
  DefaultLossModel.GaussianBinomialLossModel (ktLossLM sqrt)

/-- Lines 132-133: `initT.tOrders = std::vector<Integer>(2, 3)`. -/
def initT : CopulaInit := CopulaInit.StudentT (List.replicate 2 3)

/-- Lines 134-139. -/
def ktTLossLM : LatentModel R :=
  LatentModel.ConstantLossLM (fctrsWeights sqrt) (recoveries R)
    LatentModelIntegrationType.Trapezoid initT

/-- Lines 140-141. -/
def lmTBinomial : DefaultLossModel R :=
  DefaultLossModel.TBinomialLossModel (ktTLossLM sqrt)

/-- Lines 148-153. -/
def gLM : LatentModel R :=
  LatentModel.ConstantLossLM (fctrsWeights sqrt) (recoveries R)
    LatentModelIntegrationType.GaussianQuadrature CopulaInit.Gaussian

/-- Line 155. -/
def numBuckets : Nat := 100

/-- Lines 156-157. -/
def inhomogeneousLM : DefaultLossModel R :=
  DefaultLossModel.IHGaussPoolLossModel (gLM sqrt) numBuckets

/-- Line 165. -/
def numSimulations : Nat := 100000

/-- Lines 168-172. -/
def rdlmG : DefaultLossModel R :=
  DefaultLossModel.RandomDefaultLM CopulaPolicy.GaussianCopulaPolicy (gLM sqrt)
    (recoveries R) numSimulations 1e-6 2863311530

/-- Lines 183-187. -/
def rdlmT : DefaultLossModel R :=
  DefaultLossModel.RandomDefaultLM CopulaPolicy.TCopulaPolicy (ktTLossLM sqrt)
    (recoveries R) numSimulations 1e-6 2863311530

/-- Lines 198-199. -/
def fctrsWeightsRR : List (List R) :=
  List.replicate (2 * (hazardRates R).length) (List.replicate 1 (sqrt (factorValue R)))

/-- Line 200. -/
def modelA : R := 2.2

/-- Lines 201-204. -/
def sptLG : LatentModel R :=
  LatentModel.SpotLossLM (fctrsWeightsRR sqrt) (recoveries R) modelA
    LatentModelIntegrationType.GaussianQuadrature CopulaInit.Gaussian

/-- Lines 205-207. -/
def sptLT : LatentModel R :=
  LatentModel.SpotLossLM (fctrsWeightsRR sqrt) (recoveries R) modelA
    LatentModelIntegrationType.GaussianQuadrature initT

/-- Lines 213-215. -/
def rdLlmG : DefaultLossModel R :=
  DefaultLossModel.RandomLossLM CopulaPolicy.GaussianCopulaPolicy (sptLG sqrt)
    numSimulations 1e-6 2863311530

/-- Lines 224-226. -/
def rdLlmT : DefaultLossModel R :=
  DefaultLossModel.RandomLossLM CopulaPolicy.TCopulaPolicy (sptLT sqrt)
    numSimulations 1e-6 2863311530

/-- Lines 237-239. -/
def bcTenors : List Period := [⟨1, TimeUnit.Years⟩, ⟨5, TimeUnit.Years⟩]

/-- Lines 240-242. -/
def bcLossPercentages : List R := [0.03, 0.12]

/-- Lines 245-252: the quotes at 3% and 12% of the first tenor. -/
def corr1Y : List R :=
  [entry (fctrsWeights sqrt) 0 0 * entry (fctrsWeights sqrt) 0 0,
   entry (fctrsWeights sqrt) 0 0 * entry (fctrsWeights sqrt) 0 0]

/-- Lines 253-260: the quotes at 3% and 12% of the second tenor. -/
def corr2Y : List R :=
  [entry (fctrsWeights sqrt) 0 0 * entry (fctrsWeights sqrt) 0 0,
   entry (fctrsWeights sqrt) 0 0 * entry (fctrsWeights sqrt) 0 0]

def correls : List (List R) := [corr1Y sqrt, corr2Y sqrt]

/-- Lines 261-273; `defTS[0]->settlementDays()` is the `0` and
`defTS[0]->calendar()` the `TARGET()` given to every curve at line 71. -/
def correlSurface : BaseCorrelationTermStructure R :=
  { settlementDays := (((defTS R).map FlatHazardRate.settlementDays).head?).getD 0,
    calendar := TARGET,
    bdc := BusinessDayConvention.Unadjusted,
    tenors := bcTenors,
    lossLevel := bcLossPercentages,
    correls := correls sqrt }

/-- Lines 276-278. -/
def bcLMG_LHP_Bilin : DefaultLossModel R :=
  DefaultLossModel.GaussianLHPFlatBCLM (correlSurface sqrt) (recoveries R) CopulaInit.Gaussian

/-- The statements of the `try` block from line 45 to line 284, in order. -/
def body (todaysDate calcDate : Date) : List (Stmt R) :=
  [ Stmt.cout [Out.endl],
    Stmt.setEvaluationDate todaysDate,
    Stmt.construct (LibObject.curves (defTS R)),
    Stmt.construct (LibObject.issuers (issuers R)),
    Stmt.construct (LibObject.pool (thePool R)),
    Stmt.makeBasket (theBskt R todaysDate),
    -- LHP model
    Stmt.construct (LibObject.lossModel (lmGLHP sqrt)),
    Stmt.setLossModel (lmGLHP sqrt),
    Stmt.cout [Out.text "GLHP Expected 10-Yr Losses: ", Out.endl],
    Stmt.coutLoss calcDate,
    -- G Binomial model
    Stmt.construct (LibObject.latentModel (ktLossLM sqrt)),
    Stmt.construct (LibObject.lossModel (lmBinomial sqrt)),
    Stmt.setLossModel (lmBinomial sqrt),
    Stmt.cout [Out.text "Gaussian Binomial Expected 10-Yr Losses: ", Out.endl],
    Stmt.coutLoss calcDate,
    -- T Binomial model
    Stmt.construct (LibObject.latentModel (ktTLossLM sqrt)),
    Stmt.construct (LibObject.lossModel (lmTBinomial sqrt)),
    Stmt.setLossModel (lmTBinomial sqrt),
    Stmt.cout [Out.text "T Binomial Expected 10-Yr Losses: ", Out.endl],
    Stmt.coutLoss calcDate,
    -- G Inhomogeneous model
    Stmt.construct (LibObject.latentModel (gLM sqrt)),
    Stmt.construct (LibObject.lossModel (inhomogeneousLM sqrt)),
    Stmt.setLossModel (inhomogeneousLM sqrt),
    Stmt.cout [Out.text "G Inhomogeneous Expected 10-Yr Losses: ", Out.endl],
    Stmt.coutLoss calcDate,
    -- G Random model
    Stmt.construct (LibObject.lossModel (rdlmG sqrt)),
    Stmt.setLossModel (rdlmG sqrt),
    Stmt.cout [Out.text "Random G Expected 10-Yr Losses: ", Out.endl],
    Stmt.coutLoss calcDate,
    -- StudentT Random model
    Stmt.construct (LibObject.lossModel (rdlmT sqrt)),
    Stmt.setLossModel (rdlmT sqrt),
    Stmt.cout [Out.text "Random T Expected 10-Yr Losses: ", Out.endl],
    Stmt.coutLoss calcDate,
    -- Spot Loss latent model
    Stmt.construct (LibObject.latentModel (sptLG sqrt)),
    Stmt.construct (LibObject.latentModel (sptLT sqrt)),
    -- G Random Loss model
    Stmt.construct (LibObject.lossModel (rdLlmG sqrt)),
    Stmt.setLossModel (rdLlmG sqrt),
    Stmt.cout [Out.text "Random Loss G Expected 10-Yr Losses: ", Out.endl],
    Stmt.coutLoss calcDate,
    -- T Random Loss model
    Stmt.construct (LibObject.lossModel (rdLlmT sqrt)),
    Stmt.setLossModel (rdLlmT sqrt),
    Stmt.cout [Out.text "Random Loss T Expected 10-Yr Losses: ", Out.endl],
    Stmt.coutLoss calcDate,
    -- Base Correlation model
    Stmt.construct (LibObject.correlSurface (correlSurface sqrt)),
    Stmt.construct (LibObject.lossModel (bcLMG_LHP_Bilin sqrt)),
    Stmt.setLossModel (bcLMG_LHP_Bilin sqrt),
    Stmt.cout [Out.text "Base Correlation GLHP Expected 10-Yr Losses: ", Out.endl],
    Stmt.coutLoss calcDate ]

end Driver

/-- Lines 47-50: `todaysDate = calendar.adjust(Date(19, March, 2014))`. -/
def todaysDate : Option Date :=
  TARGET.adjust (Date.mk 19 March 2014) BusinessDayConvention.Following

/-- Lines 104-105: `calcDate(TARGET().advance(evaluationDate, Period(60,
Months)))`, the evaluation date being `todaysDate` (line 52). -/
def calcDate : Option Date :=
  todaysDate.bind
    (fun t => TARGET.advance t ⟨60, TimeUnit.Months⟩ BusinessDayConvention.Following)

section Main

variable {R : Type} [LinearOrderedField R]

/-- The `try` block of `main` (lines 42-301): the statements of `body`, then,
when none of them threw, the elapsed-time report of lines 287-298. The last
case stands for a date computation that does not return. -/
def tryBody (lib : Library R) : World R × Option Exn :=
  match todaysDate, calcDate with
  | some t, some c =>
      match run lib 0 (body lib.sqrt t c) World.init with
      | (w, none) => (w.emit ((report lib.elapsed).map Event.cout), none)
      | (w, some e) => (w, some e)
  | _, _ => (World.init, some (Exn.std "date out of range"))

/-- The function `main` (lines 40-310): exit status and final state. The two
`catch` clauses write `e.what()`, respectively "unknown error", to
`std::cerr` and return `1`. -/
def main (lib : Library R) : Int × World R :=
  match tryBody lib with
  | (w, none) => (0, w)
  | (w, some (Exn.std what)) =>
      (1, w.emit [Event.cerr (Out.text what), Event.cerr Out.endl])
  | (w, some Exn.other) =>
      (1, w.emit [Event.cerr (Out.text "unknown error"), Event.cerr Out.endl])

/-- A library in which no call throws and every loss model returns `0`. -/
def quietLibrary (sqrt : R → R) : Library R :=
  { sqrt := sqrt, fault := fun _ => none, lossModel := fun _ _ _ => Except.ok 0, elapsed := 0 }

/-- A library in which the call made at position `pos` of the body throws `e`,
no other call throws and every loss model returns `0`. -/
def faultyLibrary (sqrt : R → R) (pos : Nat) (e : Exn) : Library R :=
  { sqrt := sqrt,
    fault := fun pc => if pc = pos then some e else none,
    lossModel := fun _ _ _ => Except.ok 0,
    elapsed := 0 }

end Main

end AdvancedFittingMethod


/-! ## Reading a run: auxiliary definitions for the statements below -/

namespace QuantLib

section Reading

variable {R : Type} [LinearOrderedField R]

/-- The state a statement leaves when it completes without throwing. -/
def exec (lib : Library R) (w : World R) : Stmt R → World R
  | Stmt.cout os => w.emit (os.map Event.cout)
  | Stmt.setEvaluationDate d => { w with evaluationDate := some d }
  | Stmt.construct _ => w
  | Stmt.makeBasket b => { w with theBskt := some { toBasketData := b, lossModel := none } }
  | Stmt.setLossModel m =>
      match w.theBskt with
      | none => w
      | some b =>
          { w with theBskt := some (b.setLossModel m),
                   events := w.events ++ [Event.setLossModel m] }
  | Stmt.coutLoss d =>
      match w.theBskt, w.evaluationDate with
      | some b, some today =>
          w.emit (Event.expectedTrancheLoss b.lossModel d
            :: printLoss (b.expectedTrancheLoss lib today d))
      | _, _ => w

/-- The insertions into `std::cout`, in order. -/
def couts : List (Event R) → List (Out R)
  | [] => []
  | Event.cout o :: es => o :: couts es
  | _ :: es => couts es

/-- The insertions into `std::cerr`, in order. -/
def cerrs : List (Event R) → List (Out R)
  | [] => []
  | Event.cerr o :: es => o :: cerrs es
  | _ :: es => cerrs es

/-- The strategies passed to `setLossModel`, in order. -/
def setCalls : List (Event R) → List (DefaultLossModel R)
  | [] => []
  | Event.setLossModel m :: es => m :: setCalls es
  | _ :: es => setCalls es

/-- The calls of `expectedTrancheLoss`, in order: the slot content at the call
and the date passed. -/
def evalCalls : List (Event R) → List (Option (DefaultLossModel R) × Date)
  | [] => []
  | Event.expectedTrancheLoss a d :: es => (a, d) :: evalCalls es
  | _ :: es => evalCalls es

/-- Whether `Out.text s` is among the items. -/
def printsText (s : String) : List (Out R) → Bool
  | [] => false
  | Out.text t :: os => t == s || printsText s os
  | _ :: os => printsText s os

/-- The first number in a list of insertions. -/
def firstReal : List (Out R) → Option R
  | [] => none
  | Out.real v :: _ => some v
  | _ :: os => firstReal os

/-- The number printed after the label `label`: the first number inserted
into `std::cout` after the first insertion of the text `label`. -/
def lossPrinted (label : String) : List (Out R) → Option R
  | [] => none
  | Out.text t :: os => if t = label then firstReal os else lossPrinted label os
  | _ :: os => lossPrinted label os

/-- The name under which `main` announces each loss model. -/
def DefaultLossModel.label : DefaultLossModel R → String
  | DefaultLossModel.GaussianLHPLossModel _ _ => "GLHP"
  | DefaultLossModel.GaussianBinomialLossModel _ => "Gaussian Binomial"
  | DefaultLossModel.TBinomialLossModel _ => "T Binomial"
  | DefaultLossModel.IHGaussPoolLossModel _ _ => "G Inhomogeneous"
  | DefaultLossModel.RandomDefaultLM CopulaPolicy.GaussianCopulaPolicy _ _ _ _ _ => "Random G"
  | DefaultLossModel.RandomDefaultLM CopulaPolicy.TCopulaPolicy _ _ _ _ _ => "Random T"
  | DefaultLossModel.RandomLossLM CopulaPolicy.GaussianCopulaPolicy _ _ _ _ => "Random Loss G"
  | DefaultLossModel.RandomLossLM CopulaPolicy.TCopulaPolicy _ _ _ _ => "Random Loss T"
  | DefaultLossModel.GaussianLHPFlatBCLM _ _ _ => "Base Correlation GLHP"

/-- Whether a strategy is pending after the events, when the calls alternate
from the state `pending`; `none` when they do not alternate. -/
def pendingAfter : Bool → List (Event R) → Option Bool
  | pending, [] => some pending
  | pending, Event.setLossModel _ :: es => if pending then none else pendingAfter true es
  | pending, Event.expectedTrancheLoss _ _ :: es =>
      if pending then pendingAfter false es else none
  | pending, _ :: es => pendingAfter pending es

end Reading

end QuantLib

namespace AdvancedFittingMethod

open QuantLib

/-- The state at the end of the statements of `body` when none of them
throws. -/
@[irreducible]
def completed {R : Type} [LinearOrderedField R] (lib : Library R) : World R :=
  (body lib.sqrt (Date.mk 19 March 2014) (Date.mk 19 March 2019)).foldl (exec lib) World.init

/-- The text `main` writes to `std::cerr` for an exception. -/
def message : Exn → String
  | Exn.std what => what
  | Exn.other => "unknown error"

end AdvancedFittingMethod

namespace AdvancedFittingMethod

open QuantLib

section Blocks

variable {R : Type} [LinearOrderedField R]

/-- The strategies of `main`, in the order of the source. -/
def strategies (sqrt : R → R) : List (DefaultLossModel R) :=
  [lmGLHP sqrt, lmBinomial sqrt, lmTBinomial sqrt, inhomogeneousLM sqrt, rdlmG sqrt, rdlmT sqrt,
   rdLlmG sqrt, rdLlmT sqrt, bcLMG_LHP_Bilin sqrt]

/-- The result of `theBskt->expectedTrancheLoss(calcDate)` when the strategy
`m` is in the slot of the basket of `main`. -/
def evaluation (lib : Library R) (m : DefaultLossModel R) : Except Exn R :=
  Basket.expectedTrancheLoss lib (Date.mk 19 March 2014)
    { toBasketData := theBskt R (Date.mk 19 March 2014), lossModel := some m }
    (Date.mk 19 March 2019)

/-- The events of one block of `main`: attach `m`, print the label, evaluate
and print the result `r`. -/
def blockEvents (m : DefaultLossModel R) (label : String) (r : Except Exn R) :
    List (Event R) :=
  [Event.setLossModel m, Event.cout (Out.text label), Event.cout Out.endl,
   Event.expectedTrancheLoss (some m) (Date.mk 19 March 2019)] ++ printLoss r

end Blocks

end AdvancedFittingMethod

namespace QuantLib

/-- The latent models constructed by a list of statements, in order. -/
def latentModelsOf {R : Type} : List (Stmt R) → List (LatentModel R)
  | [] => []
  | Stmt.construct (LibObject.latentModel lm) :: rest => lm :: latentModelsOf rest
  | _ :: rest => latentModelsOf rest

end QuantLib

/-! ## Properties -/

open QuantLib AdvancedFittingMethod

section RunLemmas

variable {R : Type} [LinearOrderedField R]

theorem step_completes (lib : Library R) (pc : Nat) (w : World R) (s : Stmt R)
    (h : (step lib pc w s).2 = none) : (step lib pc w s).1 = exec lib w s := by
  cases s with
  | cout os => rfl
  | setEvaluationDate d => rfl
  | construct obj =>
      simp only [step, exec] at h ⊢
      split <;> rfl
  | makeBasket b =>
      simp only [step, exec] at h ⊢
      split at h
      · simp at h
      · rfl
  | setLossModel m =>
      simp only [step, exec] at h ⊢
      split at h
      · simp at h
      · split at h
        · simp at h
        · rfl
  | coutLoss d =>
      simp only [step, exec] at h ⊢
      split
      · rfl
      · rfl

theorem run_cons_none_iff (lib : Library R) (pc : Nat) (s : Stmt R) (rest : List (Stmt R))
    (w w' : World R) :
    run lib pc (s :: rest) w = (w', none)
      ↔ (step lib pc w s).2 = none ∧ run lib (pc + 1) rest (exec lib w s) = (w', none) := by
  rw [run]
  constructor
  · intro h
    split at h
    · rename_i w1 hs
      have h2 : (step lib pc w s).2 = none := by rw [hs]
      have h1 := step_completes lib pc w s h2
      rw [hs] at h1
      simp only at h1
      exact ⟨h2, h1 ▸ h⟩
    · simp at h
  · rintro ⟨h2, h⟩
    have h1 := step_completes lib pc w s h2
    split
    · rename_i w1 hs
      rw [hs] at h1
      simp only at h1
      rw [h1]; exact h
    · rename_i w1 e hs
      rw [hs] at h2
      simp at h2

theorem run_completes (lib : Library R) (p : List (Stmt R)) (pc : Nat) (w w' : World R)
    (h : run lib pc p w = (w', none)) : w' = p.foldl (exec lib) w := by
  induction p generalizing pc w with
  | nil => simp [run] at h; simp [h]
  | cons s rest ih =>
      rw [run_cons_none_iff] at h
      simpa using ih _ _ h.2

end RunLemmas

section PrefixLemmas

variable {R : Type} [LinearOrderedField R]

theorem exec_events_extends (lib : Library R) (w : World R) (s : Stmt R) :
    w.events <+: (exec lib w s).events := by
  cases s with
  | cout os => exact List.prefix_append _ _
  | setEvaluationDate d => exact List.prefix_refl _
  | construct obj => exact List.prefix_refl _
  | makeBasket b => exact List.prefix_refl _
  | setLossModel m =>
      simp only [exec]
      split
      · exact List.prefix_refl _
      · exact List.prefix_append _ _
  | coutLoss d =>
      simp only [exec]
      split
      · exact List.prefix_append _ _
      · exact List.prefix_refl _

theorem foldl_exec_events_extends (lib : Library R) (p : List (Stmt R)) (w : World R) :
    w.events <+: (p.foldl (exec lib) w).events := by
  induction p generalizing w with
  | nil => exact List.prefix_refl _
  | cons s rest ih => exact (exec_events_extends lib w s).trans (ih _)

theorem step_events_initial (lib : Library R) (pc : Nat) (w : World R) (s : Stmt R) :
    (step lib pc w s).1.events <+: (exec lib w s).events := by
  cases s with
  | cout os => exact List.prefix_refl _
  | setEvaluationDate d => exact List.prefix_refl _
  | construct obj =>
      simp only [step, exec]
      split <;> exact List.prefix_refl _
  | makeBasket b =>
      simp only [step, exec]
      split <;> exact List.prefix_refl _
  | setLossModel m =>
      simp only [step, exec]
      split
      · exact List.prefix_refl _
      · split <;> exact List.prefix_refl _
  | coutLoss d =>
      simp only [step, exec]
      split <;> exact List.prefix_refl _

theorem run_events_initial (lib : Library R) (p : List (Stmt R)) (pc : Nat) (w : World R) :
    (run lib pc p w).1.events <+: (p.foldl (exec lib) w).events := by
  induction p generalizing pc w with
  | nil => exact List.prefix_refl _
  | cons s rest ih =>
      rw [run]
      split
      · rename_i w1 hs
        have h2 : (step lib pc w s).2 = none := by rw [hs]
        have h1 := step_completes lib pc w s h2
        rw [hs] at h1
        simp only at h1
        subst h1
        exact ih _ _
      · rename_i w1 e hs
        have h1 := step_events_initial lib pc w s
        rw [hs] at h1
        exact h1.trans (foldl_exec_events_extends lib rest _)

end PrefixLemmas


section MainLemmas

variable {R : Type} [LinearOrderedField R]

theorem todaysDate_eq : todaysDate = some (Date.mk 19 March 2014) := by decide

theorem calcDate_eq : calcDate = some (Date.mk 19 March 2019) := by decide

theorem tryBody_eq (lib : Library R) :
    tryBody lib =
      match run lib 0 (body lib.sqrt (Date.mk 19 March 2014) (Date.mk 19 March 2019))
          World.init with
      | (w, none) => (w.emit ((report lib.elapsed).map Event.cout), none)
      | (w, some e) => (w, some e) := by
  simp only [tryBody, todaysDate_eq, calcDate_eq]

/-- Any run of `main` either completes, and its events are those of the
completed body followed by the report, or stops at the first exception, and
its events are a beginning of those of the completed body followed by the
line on `std::cerr`. -/
theorem main_cases (lib : Library R) :
    ((main lib).1 = 0 ∧ (tryBody lib).2 = none
      ∧ run lib 0 (body lib.sqrt (Date.mk 19 March 2014) (Date.mk 19 March 2019)) World.init
          = (completed lib, none)
      ∧ (main lib).2.events
          = (completed lib).events ++ (report lib.elapsed).map Event.cout)
    ∨ (∃ e pre, (main lib).1 = 1 ∧ (tryBody lib).2 = some e
        ∧ pre <+: (completed lib).events
        ∧ (main lib).2.events
            = pre ++ [Event.cerr (Out.text (message e)), Event.cerr Out.endl]) := by
  have hp : (run lib 0 (body lib.sqrt (Date.mk 19 March 2014) (Date.mk 19 March 2019))
      World.init).1.events <+: (completed lib).events := by
    rw [completed]
    exact run_events_initial lib _ 0 World.init
  cases hr : run lib 0 (body lib.sqrt (Date.mk 19 March 2014) (Date.mk 19 March 2019))
      World.init with
  | mk w oe =>
    cases oe with
    | none =>
        left
        have hw := run_completes lib _ _ _ _ hr
        have ht : tryBody lib = (w.emit ((report lib.elapsed).map Event.cout), none) := by
          rw [tryBody_eq, hr]
        refine ⟨?_, ?_, ?_, ?_⟩
        · simp only [main, ht]
        · rw [ht]
        · rw [hw, completed]
        · simp only [main, ht, World.emit]
          rw [hw, completed]
    | some e =>
        right
        have ht : tryBody lib = (w, some e) := by rw [tryBody_eq, hr]
        rw [hr] at hp
        refine ⟨e, w.events, ?_, ?_, hp, ?_⟩
        · cases e <;> simp only [main, ht]
        · rw [ht]
        · cases e <;> simp only [main, ht, World.emit, message]

end MainLemmas

section ReadingLemmas

variable {R : Type}

theorem setCalls_append (a b : List (Event R)) : setCalls (a ++ b) = setCalls a ++ setCalls b := by
  induction a with
  | nil => rfl
  | cons e es ih => cases e <;> simp [setCalls, ih]

theorem evalCalls_append (a b : List (Event R)) :
    evalCalls (a ++ b) = evalCalls a ++ evalCalls b := by
  induction a with
  | nil => rfl
  | cons e es ih => cases e <;> simp [evalCalls, ih]

theorem couts_append (a b : List (Event R)) : couts (a ++ b) = couts a ++ couts b := by
  induction a with
  | nil => rfl
  | cons e es ih => cases e <;> simp [couts, ih]

theorem cerrs_append (a b : List (Event R)) : cerrs (a ++ b) = cerrs a ++ cerrs b := by
  induction a with
  | nil => rfl
  | cons e es ih => cases e <;> simp [cerrs, ih]

theorem setCalls_cons_cout (o : Out R) (es : List (Event R)) :
    setCalls (Event.cout o :: es) = setCalls es := rfl

theorem evalCalls_cons_cout (o : Out R) (es : List (Event R)) :
    evalCalls (Event.cout o :: es) = evalCalls es := rfl

theorem setCalls_map_cout (os : List (Out R)) : setCalls (os.map Event.cout) = [] := by
  induction os with
  | nil => rfl
  | cons o os ih => simpa [setCalls] using ih

theorem evalCalls_map_cout (os : List (Out R)) : evalCalls (os.map Event.cout) = [] := by
  induction os with
  | nil => rfl
  | cons o os ih => simpa [evalCalls] using ih

theorem cerrs_map_cout (os : List (Out R)) : cerrs (os.map Event.cout) = [] := by
  induction os with
  | nil => rfl
  | cons o os ih => simpa [cerrs] using ih

theorem couts_map_cout (os : List (Out R)) : couts (os.map Event.cout) = os := by
  induction os with
  | nil => rfl
  | cons o os ih => simpa [couts] using ih

theorem printsText_append (s : String) (a b : List (Out R)) :
    printsText s (a ++ b) = (printsText s a || printsText s b) := by
  induction a with
  | nil => simp [printsText]
  | cons o os ih => cases o <;> simp [printsText, ih, Bool.or_assoc]

theorem setCalls_blockEvents (m : DefaultLossModel R) (l : String) (r : Except Exn R) :
    setCalls (blockEvents m l r) = [m] := by
  cases r <;> rfl

theorem evalCalls_blockEvents (m : DefaultLossModel R) (l : String) (r : Except Exn R) :
    evalCalls (blockEvents m l r) = [(some m, Date.mk 19 March 2019)] := by
  cases r <;> rfl

theorem cerrs_blockEvents (m : DefaultLossModel R) (l : String) (r : Except Exn R) :
    cerrs (blockEvents m l r) = [] := by
  cases r <;> rfl

end ReadingLemmas

section Completed

variable {R : Type} [LinearOrderedField R]

/-- The events of the completed body: the first line break, then one block per
strategy. -/
theorem completed_events (lib : Library R) :
    (completed lib).events
      = Event.cout Out.endl
        :: (blockEvents (lmGLHP lib.sqrt) "GLHP Expected 10-Yr Losses: "
              (evaluation lib (lmGLHP lib.sqrt))
          ++ (blockEvents (lmBinomial lib.sqrt) "Gaussian Binomial Expected 10-Yr Losses: "
              (evaluation lib (lmBinomial lib.sqrt))
          ++ (blockEvents (lmTBinomial lib.sqrt) "T Binomial Expected 10-Yr Losses: "
              (evaluation lib (lmTBinomial lib.sqrt))
          ++ (blockEvents (inhomogeneousLM lib.sqrt) "G Inhomogeneous Expected 10-Yr Losses: "
              (evaluation lib (inhomogeneousLM lib.sqrt))
          ++ (blockEvents (rdlmG lib.sqrt) "Random G Expected 10-Yr Losses: "
              (evaluation lib (rdlmG lib.sqrt))
          ++ (blockEvents (rdlmT lib.sqrt) "Random T Expected 10-Yr Losses: "
              (evaluation lib (rdlmT lib.sqrt))
          ++ (blockEvents (rdLlmG lib.sqrt) "Random Loss G Expected 10-Yr Losses: "
              (evaluation lib (rdLlmG lib.sqrt))
          ++ (blockEvents (rdLlmT lib.sqrt) "Random Loss T Expected 10-Yr Losses: "
              (evaluation lib (rdLlmT lib.sqrt))
          ++ blockEvents (bcLMG_LHP_Bilin lib.sqrt)
              "Base Correlation GLHP Expected 10-Yr Losses: "
              (evaluation lib (bcLMG_LHP_Bilin lib.sqrt)))))))))) := by
  simp only [completed, body, exec, World.init, World.emit, Basket.setLossModel, List.foldl,
    List.map, List.nil_append, List.append_assoc, List.cons_append, blockEvents, evaluation]

end Completed

section CompletedOutputs

variable {R : Type}

theorem cerrs_cons_cout (o : Out R) (es : List (Event R)) :
    cerrs (Event.cout o :: es) = cerrs es := rfl

theorem completed_cerrs [LinearOrderedField R] (lib : Library R) : cerrs (completed lib).events = [] := by
  rw [completed_events]
  simp only [cerrs_cons_cout, cerrs_append, cerrs_blockEvents, List.append_nil]

theorem printsText_blockEvents (s : String) (m : DefaultLossModel R) (l : String)
    (r : Except Exn R) : printsText s (couts (blockEvents m l r)) = (l == s) := by
  cases r <;> simp [blockEvents, printLoss, couts, printsText]

theorem couts_cons_cout (o : Out R) (es : List (Event R)) :
    couts (Event.cout o :: es) = o :: couts es := rfl

theorem printsText_cons_endl (s : String) (os : List (Out R)) :
    printsText s (Out.endl :: os) = printsText s os := rfl

theorem completed_printsText [LinearOrderedField R] (lib : Library R) :
    printsText "Run completed in " (couts (completed lib).events) = false := by
  rw [completed_events]
  simp only [couts_cons_cout, printsText_cons_endl, couts_append, printsText_append,
    printsText_blockEvents]
  decide

end CompletedOutputs

section SurfaceLemmas

variable {R : Type} [LinearOrderedField R]

theorem locate_pair (x0 x1 x : R) (h0 : x0 ≤ x) (h1 : x ≤ x1) : locate [x0, x1] x = 0 := by
  simp [locate, not_lt.mpr h0, not_lt.mpr h1, List.filter_cons, h0]

/-- On a grid of one cell whose four values all equal `rho`, the bilinear
interpolation returns `rho` at every point of the cell. -/
theorem bilinear_const (x0 x1 y0 y1 rho x y : R)
    (hx0 : x0 ≤ x) (hx1 : x ≤ x1) (hy0 : y0 ≤ y) (hy1 : y ≤ y1) :
    bilinear [x0, x1] [y0, y1] [[rho, rho], [rho, rho]] x y = Except.ok rho := by
  have hc : (x0 ≤ x ∧ x ≤ x1 ∧ y0 ≤ y ∧ y ≤ y1) := ⟨hx0, hx1, hy0, hy1⟩
  simp only [bilinear, List.getD_cons_zero, List.length_cons, List.length_nil,
    Nat.reduceAdd, Nat.reduceSub, List.getD_cons_succ, hc, and_self, if_true,
    locate_pair x0 x1 x hx0 hx1, locate_pair y0 y1 y hy0 hy1, entry]
  congr 1
  ring

theorem serial_2014 : (Date.mk 19 March 2014).serialNumber = 41717 := by decide
theorem serial_2015 : (Date.mk 19 March 2015).serialNumber = 42082 := by decide
theorem serial_2019 : (Date.mk 19 March 2019).serialNumber = 43543 := by decide

theorem entry_fctrsWeights (sqrt : R → R) :
    entry (fctrsWeights sqrt) 0 0 = sqrt (factorValue R) := by
  simp [entry, fctrsWeights, hazardRates]

theorem correlSurface_referenceDate (sqrt : R → R) :
    (correlSurface sqrt).referenceDate (Date.mk 19 March 2014) = some (Date.mk 19 March 2014) := by
  have h : (correlSurface sqrt).settlementDays = 0 := by
    simp [correlSurface, defTS, hazardRates]
  simp only [BaseCorrelationTermStructure.referenceDate, h]
  show TARGET.advance _ _ _ = _
  decide

theorem correlSurface_trancheDates (sqrt : R → R) :
    (correlSurface sqrt).trancheDates (Date.mk 19 March 2014)
      = some [Date.mk 19 March 2015, Date.mk 19 March 2019] := by
  simp only [BaseCorrelationTermStructure.trancheDates, correlSurface_referenceDate]
  show Option.bind (some _) (fun ref => bcTenors.mapM
    (fun p => TARGET.advance ref p BusinessDayConvention.Unadjusted)) = _
  decide

/-- The surface of `main` seen as an interpolation grid: tenor times `1` and
`1826 / 365`, loss levels `0.03` and `0.12`, all four values equal to the
square of the loading. -/
theorem correlSurface_correlation (sqrt : R → R) (d : Date) (l : R) :
    (correlSurface sqrt).correlation (Date.mk 19 March 2014) d l
      = bilinear [1, 1826 / 365] [0.03, 0.12]
          [[sqrt (factorValue R) * sqrt (factorValue R),
            sqrt (factorValue R) * sqrt (factorValue R)],
           [sqrt (factorValue R) * sqrt (factorValue R),
            sqrt (factorValue R) * sqrt (factorValue R)]]
          (((d.serialNumber : Int) - 41717 : Int) / 365) l := by
  simp only [BaseCorrelationTermStructure.correlation, correlSurface_referenceDate,
    correlSurface_trancheDates, List.map, Actual365Fixed, serial_2014, serial_2015, serial_2019]
  simp only [correlSurface, bcLossPercentages, correls, corr1Y, corr2Y, entry_fctrsWeights]
  norm_num

end SurfaceLemmas

section EvaluationLemmas

variable {R : Type} [LinearOrderedField R]

theorem correlSurface_lookup (sqrt : R → R) :
    (correlSurface sqrt).correlation (Date.mk 19 March 2014) (Date.mk 19 March 2019)
        (theBskt R (Date.mk 19 March 2014)).detachment
      = Except.ok (sqrt (factorValue R) * sqrt (factorValue R)) := by
  rw [correlSurface_correlation, serial_2019]
  apply bilinear_const <;> norm_num [theBskt]

theorem evaluation_bc (lib : Library R) :
    evaluation lib (bcLMG_LHP_Bilin lib.sqrt) = evaluation lib (lmGLHP lib.sqrt) := by
  simp only [evaluation, Basket.expectedTrancheLoss, bcLMG_LHP_Bilin, lmGLHP,
    DefaultLossModel.expectedTrancheLoss, correlSurface_lookup, entry_fctrsWeights]

theorem thrown_eq_none {α : Type} (r : Except Exn α) : thrown r = none ↔ ∃ v, r = Except.ok v := by
  cases r <;> simp [thrown]

theorem checkParameters_ok (sqrt : R → R)
    (h : sqrt (factorValue R) * sqrt (factorValue R) ≤ 1) :
    (ktLossLM sqrt).checkParameters = Except.ok ()
    ∧ (ktTLossLM sqrt).checkParameters = Except.ok ()
    ∧ (gLM sqrt).checkParameters = Except.ok ()
    ∧ (sptLG sqrt).checkParameters = Except.ok ()
    ∧ (sptLT sqrt).checkParameters = Except.ok () := by
  have hv : (0 : R) ≤ idiosyncraticVariance [sqrt (factorValue R)] := by
    simp [idiosyncraticVariance, h]
  refine ⟨?_, ?_, ?_, ?_, ?_⟩ <;>
    simp [LatentModel.checkParameters, ktLossLM, ktTLossLM, gLM, sptLG, sptLT,
      LatentModel.factorWeights, LatentModel.ini, fctrsWeights, fctrsWeightsRR, initT,
      List.all_eq_true, List.mem_replicate, hv]

/-- The body completes when no library call faults, the loadings pass the
latent-model check and every evaluation returns. -/
theorem run_body_complete (lib : Library R) (hf : ∀ pc, lib.fault pc = none)
    (hs : lib.sqrt (factorValue R) * lib.sqrt (factorValue R) ≤ 1)
    (he : ∀ m ∈ strategies lib.sqrt, thrown (evaluation lib m) = none) :
    run lib 0 (body lib.sqrt (Date.mk 19 March 2014) (Date.mk 19 March 2019)) World.init
      = (completed lib, none) := by
  obtain ⟨c1, c2, c3, c4, c5⟩ := checkParameters_ok lib.sqrt hs
  have e1 := he (lmGLHP lib.sqrt) (by simp [strategies])
  have e2 := he (lmBinomial lib.sqrt) (by simp [strategies])
  have e3 := he (lmTBinomial lib.sqrt) (by simp [strategies])
  have e4 := he (inhomogeneousLM lib.sqrt) (by simp [strategies])
  have e5 := he (rdlmG lib.sqrt) (by simp [strategies])
  have e6 := he (rdlmT lib.sqrt) (by simp [strategies])
  have e7 := he (rdLlmG lib.sqrt) (by simp [strategies])
  have e8 := he (rdLlmT lib.sqrt) (by simp [strategies])
  have e9 := he (bcLMG_LHP_Bilin lib.sqrt) (by simp [strategies])
  simp only [evaluation] at e1 e2 e3 e4 e5 e6 e7 e8 e9
  simp only [body, run_cons_none_iff, run, exec, step, hf, LibObject.check, c1, c2, c3, c4, c5,
    World.init, World.emit, Basket.setLossModel, e1, e2, e3, e4, e5, e6, e7, e8, e9,
    true_and, and_true, completed, List.foldl]

theorem evaluation_quiet (sqrt : R → R) (m : DefaultLossModel R)
    (hm : m ∈ strategies sqrt) : evaluation (quietLibrary sqrt) m = Except.ok 0 := by
  by_cases hb : m = bcLMG_LHP_Bilin sqrt
  · have h : evaluation (quietLibrary sqrt) (bcLMG_LHP_Bilin sqrt)
        = evaluation (quietLibrary sqrt) (lmGLHP sqrt) := evaluation_bc (quietLibrary sqrt)
    rw [hb, h]
    rfl
  · simp only [strategies, List.mem_cons, List.mem_singleton, hb, or_false, List.mem_nil_iff] at hm
    rcases hm with h | h | h | h | h | h | h | h <;> rw [h] <;> rfl

theorem main_quiet (sqrt : R → R) (hs : sqrt (factorValue R) * sqrt (factorValue R) ≤ 1) :
    (main (quietLibrary sqrt)).1 = 0 := by
  have he : ∀ m ∈ strategies sqrt, thrown (evaluation (quietLibrary sqrt) m) = none := by
    intro m hm
    rw [evaluation_quiet sqrt m hm]
    rfl
  have hr := run_body_complete (quietLibrary sqrt) (fun _ => rfl) hs he
  simp only [main, tryBody_eq, hr]

theorem sqrt_factorValue : Real.sqrt (factorValue ℝ) * Real.sqrt (factorValue ℝ) = 0.05 :=
  Real.mul_self_sqrt (by norm_num [factorValue])

theorem main_quiet_real : (main (quietLibrary Real.sqrt)).1 = 0 :=
  main_quiet Real.sqrt (by rw [sqrt_factorValue]; norm_num)

end EvaluationLemmas

section FirstEvaluation

variable {R : Type} [LinearOrderedField R]

theorem step_snd_coutLoss (lib : Library R) (pc : Nat) (d today : Date) (b : Basket R)
    (es : List (Event R)) :
    (step lib pc { evaluationDate := some today, theBskt := some b, events := es }
        (Stmt.coutLoss d)).2 = thrown (b.expectedTrancheLoss lib today d) := by
  simp only [step]

/-- When the body completes, the first evaluation (under the LHP model)
returned a value. -/
theorem first_evaluation_ok (lib : Library R) (w : World R)
    (h : run lib 0 (body lib.sqrt (Date.mk 19 March 2014) (Date.mk 19 March 2019)) World.init
      = (w, none)) : ∃ v, evaluation lib (lmGLHP lib.sqrt) = Except.ok v := by
  simp only [body, run_cons_none_iff] at h
  have h10 := h.2.2.2.2.2.2.2.2.2.1
  simp only [exec, World.init, World.emit, Basket.setLossModel, step_snd_coutLoss] at h10
  exact (thrown_eq_none _).mp h10

end FirstEvaluation

section CompleteRuns

variable {R : Type} [LinearOrderedField R]

theorem main_complete (lib : Library R) (h : (tryBody lib).2 = none) :
    (main lib).1 = 0
    ∧ run lib 0 (body lib.sqrt (Date.mk 19 March 2014) (Date.mk 19 March 2019)) World.init
        = (completed lib, none)
    ∧ (main lib).2.events = (completed lib).events ++ (report lib.elapsed).map Event.cout := by
  rcases main_cases lib with ⟨h1, _, h3, h4⟩ | ⟨e, pre, _, h2, _, _⟩
  · exact ⟨h1, h3, h4⟩
  · rw [h] at h2; cases h2

theorem tryBody_of_exit_zero (lib : Library R) (h : (main lib).1 = 0) : (tryBody lib).2 = none := by
  rcases main_cases lib with ⟨_, h2, _, _⟩ | ⟨e, pre, h1, _, _, _⟩
  · exact h2
  · rw [h] at h1; cases h1

theorem tryBody_quiet_real : (tryBody (quietLibrary Real.sqrt)).2 = none :=
  tryBody_of_exit_zero _ main_quiet_real

theorem complete_setCalls (lib : Library R) (h : (tryBody lib).2 = none) :
    setCalls (main lib).2.events = strategies lib.sqrt := by
  rw [(main_complete lib h).2.2, completed_events]
  simp only [setCalls_cons_cout, setCalls_append, setCalls_blockEvents, setCalls_map_cout, strategies,
    List.append_nil, List.cons_append, List.nil_append]

theorem complete_evalCalls (lib : Library R) (h : (tryBody lib).2 = none) :
    evalCalls (main lib).2.events
      = (strategies lib.sqrt).map (fun m => (some m, Date.mk 19 March 2019)) := by
  rw [(main_complete lib h).2.2, completed_events]
  simp only [evalCalls_cons_cout, evalCalls_append, evalCalls_blockEvents, evalCalls_map_cout, strategies,
    List.append_nil, List.cons_append, List.nil_append, List.map]

end CompleteRuns

/-- C1 (amended): in a run of `main` in which nothing throws, the driver
attaches nine loss-model strategies and evaluates each once: there are nine
`setLossModel` calls and nine `expectedTrancheLoss` calls. -/
theorem main_nine_strategies {R : Type} [LinearOrderedField R] (lib : Library R)
    (h : (tryBody lib).2 = none) :
    (setCalls (main lib).2.events).length = 9 ∧ (evalCalls (main lib).2.events).length = 9 := by
  rw [complete_setCalls lib h, complete_evalCalls lib h]
  simp [strategies]

theorem main_nine_strategies_witness :
    (tryBody (quietLibrary Real.sqrt)).2 = none
    ∧ (setCalls (main (quietLibrary Real.sqrt)).2.events).length = 9
    ∧ (evalCalls (main (quietLibrary Real.sqrt)).2.events).length = 9 :=
  ⟨tryBody_quiet_real, main_nine_strategies (quietLibrary Real.sqrt) tryBody_quiet_real⟩

/-- C1 (as stated) fails: in the run of `main` against a library in which
nothing throws, the numbers of `setLossModel` and `expectedTrancheLoss` calls
are not seven. -/
theorem main_not_seven_strategies :
    ¬ ((tryBody (quietLibrary Real.sqrt)).2 = none →
        (setCalls (main (quietLibrary Real.sqrt)).2.events).length = 7
        ∧ (evalCalls (main (quietLibrary Real.sqrt)).2.events).length = 7) := by
  intro h
  have h7 := (h tryBody_quiet_real).1
  rw [complete_setCalls _ tryBody_quiet_real] at h7
  simp [strategies] at h7

section ExitStatus

variable {R : Type} [LinearOrderedField R]

theorem failing_run_outputs (lib : Library R) (e : Exn) (h : (tryBody lib).2 = some e) :
    (main lib).1 = 1
    ∧ cerrs (main lib).2.events = [Out.text (message e), Out.endl]
    ∧ printsText "Run completed in " (couts (main lib).2.events) = false := by
  rcases main_cases lib with ⟨_, h2, _, _⟩ | ⟨e', pre, h1, h2, ⟨post, hp⟩, h4⟩
  · rw [h] at h2; cases h2
  · rw [h] at h2
    cases h2
    have hc := completed_cerrs lib
    have ht := completed_printsText lib
    rw [← hp, cerrs_append, List.append_eq_nil] at hc
    rw [← hp, couts_append, printsText_append, Bool.or_eq_false_iff] at ht
    refine ⟨h1, ?_, ?_⟩
    · rw [h4, cerrs_append, hc.1]; rfl
    · rw [h4, couts_append, printsText_append, ht.1]; rfl

theorem tryBody_faulty (sqrt : R → R) (e : Exn) :
    (tryBody (faultyLibrary sqrt 2 e)).2 = some e := by
  rw [tryBody_eq]
  simp [body, run, step, faultyLibrary, LibObject.check]

end ExitStatus

/-- C3: `main` returns `0` exactly when the body of its `try` block completes
without throwing. When an exception escapes the body, `main` returns `1`,
writes exactly one line to the error stream (`e.what()` for an exception
derived from `std::exception`, "unknown error" for any other), and prints no
"Run completed in" line. -/
theorem main_exit_status {R : Type} [LinearOrderedField R] (lib : Library R) :
    ((main lib).1 = 0 ↔ (tryBody lib).2 = none)
    ∧ (∀ what, (tryBody lib).2 = some (Exn.std what) →
        (main lib).1 = 1
        ∧ cerrs (main lib).2.events = [Out.text what, Out.endl]
        ∧ printsText "Run completed in " (couts (main lib).2.events) = false)
    ∧ ((tryBody lib).2 = some Exn.other →
        (main lib).1 = 1
        ∧ cerrs (main lib).2.events = [Out.text "unknown error", Out.endl]
        ∧ printsText "Run completed in " (couts (main lib).2.events) = false) :=
  ⟨⟨tryBody_of_exit_zero lib, fun h => (main_complete lib h).1⟩,
   fun what h => failing_run_outputs lib (Exn.std what) h,
   fun h => failing_run_outputs lib Exn.other h⟩

theorem main_exit_status_witness :
    ((tryBody (faultyLibrary Real.sqrt 2 (Exn.std "Boost assertion failed"))).2
        = some (Exn.std "Boost assertion failed")
      ∧ (main (faultyLibrary Real.sqrt 2 (Exn.std "Boost assertion failed"))).1 = 1
      ∧ cerrs (main (faultyLibrary Real.sqrt 2 (Exn.std "Boost assertion failed"))).2.events
          = [Out.text "Boost assertion failed", Out.endl]
      ∧ printsText "Run completed in "
          (couts (main (faultyLibrary Real.sqrt 2 (Exn.std "Boost assertion failed"))).2.events)
          = false)
    ∧ ((tryBody (faultyLibrary Real.sqrt 2 Exn.other)).2 = some Exn.other
      ∧ (main (faultyLibrary Real.sqrt 2 Exn.other)).1 = 1
      ∧ cerrs (main (faultyLibrary Real.sqrt 2 Exn.other)).2.events
          = [Out.text "unknown error", Out.endl]
      ∧ printsText "Run completed in "
          (couts (main (faultyLibrary Real.sqrt 2 Exn.other)).2.events) = false) :=
  ⟨⟨tryBody_faulty _ _,
    (main_exit_status (faultyLibrary Real.sqrt 2 (Exn.std "Boost assertion failed"))).2.1 _
      (tryBody_faulty _ _)⟩,
   ⟨tryBody_faulty _ _,
    (main_exit_status (faultyLibrary Real.sqrt 2 Exn.other)).2.2 (tryBody_faulty _ _)⟩⟩

section Discipline

variable {R : Type}

end Discipline

section DisciplineOfMain

variable {R : Type} [LinearOrderedField R]

end DisciplineOfMain

section Alternation

variable {R : Type}

theorem pendingAfter_map_cerr (os : List (Out R)) (p : Bool) :
    pendingAfter p (os.map Event.cerr) = some p := by
  induction os with
  | nil => rfl
  | cons o os ih => exact ih

end Alternation

section GuardedRuns

variable {R : Type} [LinearOrderedField R]

end GuardedRuns

section DisciplineOfEveryRun

variable {R : Type} [LinearOrderedField R]

end DisciplineOfEveryRun

section Configuration

variable {R : Type} [LinearOrderedField R]

theorem main_complete_basket (lib : Library R) (h : (tryBody lib).2 = none) :
    (main lib).2.theBskt
      = some { toBasketData := theBskt R (Date.mk 19 March 2014),
               lossModel := some (bcLMG_LHP_Bilin lib.sqrt) } := by
  have hr := (main_complete lib h).2.1
  have hm : (main lib).2 = (completed lib).emit ((report lib.elapsed).map Event.cout) := by
    simp only [main, tryBody_eq, hr]
  rw [hm]
  simp only [completed, body, exec, World.init, World.emit, Basket.setLossModel, List.foldl]

theorem sq_sqrt_factorValue (sqrt : R → R) (hsqrt : ∀ x, 0 ≤ x → sqrt x * sqrt x = x) :
    sqrt (factorValue R) * sqrt (factorValue R) = 0.05 :=
  hsqrt (factorValue R) (by norm_num [factorValue])

end Configuration

/-- C9 (the code at the run of `main`): under each label "... Expected 10-Yr
Losses:" the date passed to `expectedTrancheLoss` is 19 March 2019, the
evaluation date 19 March 2014 advanced by 60 months, whereas the evaluation
date advanced by 10 years (120 months) is 19 March 2024. -/
theorem ten_year_label_five_year_horizon :
    todaysDate = some (Date.mk 19 March 2014)
    ∧ printsText "GLHP Expected 10-Yr Losses: "
        (couts (main (quietLibrary Real.sqrt)).2.events) = true
    ∧ (evalCalls (main (quietLibrary Real.sqrt)).2.events).map Prod.snd
        = List.replicate 9 (Date.mk 19 March 2019)
    ∧ TARGET.advance (Date.mk 19 March 2014) ⟨60, TimeUnit.Months⟩
        BusinessDayConvention.Following = some (Date.mk 19 March 2019)
    ∧ TARGET.advance (Date.mk 19 March 2014) ⟨120, TimeUnit.Months⟩
        BusinessDayConvention.Following = some (Date.mk 19 March 2024)
    ∧ TARGET.advance (Date.mk 19 March 2014) ⟨10, TimeUnit.Years⟩
        BusinessDayConvention.Following = some (Date.mk 19 March 2024)
    ∧ Date.mk 19 March 2019 ≠ Date.mk 19 March 2024 := by
  refine ⟨todaysDate_eq, ?_, ?_, by decide, by decide, by decide, by decide⟩
  · rw [(main_complete _ tryBody_quiet_real).2.2, completed_events]
    simp only [couts_cons_cout, printsText_cons_endl, couts_append, printsText_append,
      printsText_blockEvents]
    simp
  · rw [complete_evalCalls _ tryBody_quiet_real]
    simp [strategies]

/-- C2: the configuration `main` builds: ten names, each with a flat
hazard-rate curve, the rates being `0.001, 0.01, 0.02, ..., 0.09`; ten
recoveries, all `0.4`; a factor-weight matrix of ten rows, each holding the
single loading `sqrt(0.05)`; a basket tranche with attachment `0.03` and
detachment `0.06`; and `calcDate`, the evaluation date 19 March 2014 advanced
by 60 months, which is 5 years later. -/
theorem main_configuration {R : Type} [LinearOrderedField R] (lib : Library R) :
    names R = ["Acme0", "Acme1", "Acme2", "Acme3", "Acme4", "Acme5", "Acme6", "Acme7",
               "Acme8", "Acme9"]
    ∧ (names R).length = 10
    ∧ (thePool R).map (fun e => (e.1, e.2.1.curves.map (fun c => c.2.hazardRate)))
        = [("Acme0", [0.001]), ("Acme1", [0.01]), ("Acme2", [0.02]), ("Acme3", [0.03]),
           ("Acme4", [0.04]), ("Acme5", [0.05]), ("Acme6", [0.06]), ("Acme7", [0.07]),
           ("Acme8", [0.08]), ("Acme9", [0.09])]
    ∧ (hazardRates R).head? = some 0.001
    ∧ (hazardRates R).getLast? = some 0.09
    ∧ recoveries R = List.replicate 10 0.4
    ∧ fctrsWeights lib.sqrt = List.replicate 10 [lib.sqrt 0.05]
    ∧ (theBskt R (Date.mk 19 March 2014)).names = names R
    ∧ (theBskt R (Date.mk 19 March 2014)).pool = thePool R
    ∧ (theBskt R (Date.mk 19 March 2014)).attachment = 0.03
    ∧ (theBskt R (Date.mk 19 March 2014)).detachment = 0.06
    ∧ todaysDate = some (Date.mk 19 March 2014)
    ∧ calcDate = TARGET.advance (Date.mk 19 March 2014) ⟨60, TimeUnit.Months⟩
        BusinessDayConvention.Following
    ∧ calcDate = some (Date.mk 19 March 2019)
    ∧ Date.mk 19 March 2019 = (Date.mk 19 March 2014).add ⟨5, TimeUnit.Years⟩
    ∧ ((tryBody lib).2 = none →
        (main lib).2.theBskt.map Basket.toBasketData
          = some (theBskt R (Date.mk 19 March 2014))) := by
  have hn : names R = ["Acme0", "Acme1", "Acme2", "Acme3", "Acme4", "Acme5", "Acme6", "Acme7",
               "Acme8", "Acme9"] := by
    simp only [names, hazardRates, List.length_cons, List.length_nil]
    decide
  refine ⟨hn, by rw [hn]; rfl, ?_, rfl, rfl, rfl, rfl, rfl, rfl, rfl, rfl, todaysDate_eq,
    by decide, calcDate_eq, by decide, ?_⟩
  · rw [thePool, hn]
    simp [issuers, defTS, hazardRates]
  · intro h
    rw [main_complete_basket lib h]
    rfl

theorem main_configuration_witness :
    (tryBody (quietLibrary Real.sqrt)).2 = none
    ∧ (main (quietLibrary Real.sqrt)).2.theBskt.map Basket.toBasketData
        = some (theBskt ℝ (Date.mk 19 March 2014)) :=
  ⟨tryBody_quiet_real,
   (main_configuration (quietLibrary Real.sqrt)).2.2.2.2.2.2.2.2.2.2.2.2.2.2.2
     tryBody_quiet_real⟩

/-- C5: the factor-weight matrix `fctrsWeightsRR` given to the spot-loss
latent models behind both Random Loss strategies has twice as many rows as the
basket has names (20), twice the row count of `fctrsWeights`, with one factor
per row and the same loading `sqrt(0.05)` in every row; the recovery vector
passed with it has one entry per name (10). -/
theorem random_loss_dimensions {R : Type} [LinearOrderedField R] (sqrt : R → R) :
    (fctrsWeightsRR sqrt).length = 2 * (names R).length
    ∧ (fctrsWeightsRR sqrt).length = 20
    ∧ (fctrsWeightsRR sqrt).length = 2 * (fctrsWeights sqrt).length
    ∧ fctrsWeightsRR sqrt = List.replicate 20 [sqrt 0.05]
    ∧ fctrsWeights sqrt = List.replicate 10 [sqrt 0.05]
    ∧ (sptLG sqrt).factorWeights = fctrsWeightsRR sqrt
    ∧ (sptLT sqrt).factorWeights = fctrsWeightsRR sqrt
    ∧ (sptLG sqrt).recoveries.length = (names R).length
    ∧ (sptLT sqrt).recoveries.length = (names R).length
    ∧ (names R).length = 10
    ∧ rdLlmG sqrt = DefaultLossModel.RandomLossLM CopulaPolicy.GaussianCopulaPolicy (sptLG sqrt)
        numSimulations 1e-6 2863311530
    ∧ rdLlmT sqrt = DefaultLossModel.RandomLossLM CopulaPolicy.TCopulaPolicy (sptLT sqrt)
        numSimulations 1e-6 2863311530 :=
  ⟨rfl, rfl, rfl, rfl, rfl, rfl, rfl, rfl, rfl, rfl, rfl, rfl⟩

/-- C6: every latent factor model `main` constructs satisfies the Latent
Factor Model preconditions, so its constructor does not fail with
`InvalidModelParameters`: with `sqrt` the real square root, every row of
`fctrsWeights` and of `fctrsWeightsRR` has idiosyncratic variance
`1 - Σ w² = 0.95 ≥ 0`, and the Student-t orders `initT.tOrders` are the two
integers `3, 3`, each `≥ 1`. -/
theorem latent_models_valid {R : Type} [LinearOrderedField R] (sqrt : R → R)
    (hsqrt : ∀ x, 0 ≤ x → sqrt x * sqrt x = x) :
    latentModelsOf (body sqrt (Date.mk 19 March 2014) (Date.mk 19 March 2019))
        = [ktLossLM sqrt, ktTLossLM sqrt, gLM sqrt, sptLG sqrt, sptLT sqrt]
    ∧ (∀ lm ∈ latentModelsOf (body sqrt (Date.mk 19 March 2014) (Date.mk 19 March 2019)),
        lm.checkParameters = Except.ok ()
        ∧ (lm.factorWeights = fctrsWeights sqrt ∨ lm.factorWeights = fctrsWeightsRR sqrt)
        ∧ (lm.ini = CopulaInit.Gaussian ∨ lm.ini = initT))
    ∧ (∀ w ∈ fctrsWeights sqrt, idiosyncraticVariance w = 0.95 ∧ 0 ≤ idiosyncraticVariance w)
    ∧ (∀ w ∈ fctrsWeightsRR sqrt, idiosyncraticVariance w = 0.95 ∧ 0 ≤ idiosyncraticVariance w)
    ∧ initT = CopulaInit.StudentT [3, 3]
    ∧ (∀ n ∈ [(3 : Int), 3], 1 ≤ n) := by
  have hs := sq_sqrt_factorValue sqrt hsqrt
  have hl : latentModelsOf (body sqrt (Date.mk 19 March 2014) (Date.mk 19 March 2019))
        = [ktLossLM sqrt, ktTLossLM sqrt, gLM sqrt, sptLG sqrt, sptLT sqrt] := rfl
  obtain ⟨c1, c2, c3, c4, c5⟩ := checkParameters_ok sqrt (by rw [hs]; norm_num)
  have hv : idiosyncraticVariance (List.replicate 1 (sqrt (factorValue R))) = 0.95 := by
    show idiosyncraticVariance [sqrt (factorValue R)] = 0.95
    simp only [idiosyncraticVariance, List.map, List.sum_cons, List.sum_nil, add_zero, hs]
    norm_num
  refine ⟨hl, ?_, ?_, ?_, rfl, by decide⟩
  · rw [hl]
    intro lm hlm
    simp only [List.mem_cons, List.mem_singleton, List.mem_nil_iff, or_false] at hlm
    rcases hlm with h | h | h | h | h <;> subst h
    · exact ⟨c1, Or.inl rfl, Or.inl rfl⟩
    · exact ⟨c2, Or.inl rfl, Or.inr rfl⟩
    · exact ⟨c3, Or.inl rfl, Or.inl rfl⟩
    · exact ⟨c4, Or.inr rfl, Or.inl rfl⟩
    · exact ⟨c5, Or.inr rfl, Or.inr rfl⟩
  · intro w hw
    rw [fctrsWeights, List.mem_replicate] at hw
    rw [hw.2]
    exact ⟨hv, by rw [hv]; norm_num⟩
  · intro w hw
    rw [fctrsWeightsRR, List.mem_replicate] at hw
    rw [hw.2]
    exact ⟨hv, by rw [hv]; norm_num⟩

theorem latent_models_valid_witness :
    (ktTLossLM Real.sqrt).checkParameters = Except.ok ()
    ∧ idiosyncraticVariance [Real.sqrt (factorValue ℝ)] = 0.95 :=
  have h := latent_models_valid Real.sqrt (fun x hx => Real.mul_self_sqrt hx)
  ⟨(h.2.1 (ktTLossLM Real.sqrt) (by rw [h.1]; simp)).1,
   (h.2.2.1 [Real.sqrt (factorValue ℝ)] (by simp [fctrsWeights, hazardRates])).1⟩

section PrintedLosses

variable {R : Type}

theorem couts_blockEvents (m : DefaultLossModel R) (l : String) (r : Except Exn R) :
    couts (blockEvents m l r) = Out.text l :: Out.endl :: couts (printLoss r) := by
  cases r <;> rfl

theorem lossPrinted_cons_endl (label : String) (os : List (Out R)) :
    lossPrinted label (Out.endl :: os) = lossPrinted label os := rfl

theorem lossPrinted_block_ne (label : String) (m : DefaultLossModel R) (l : String)
    (r : Except Exn R) (rest : List (Out R)) (h : l ≠ label) :
    lossPrinted label (couts (blockEvents m l r) ++ rest) = lossPrinted label rest := by
  cases r <;> simp [couts_blockEvents, printLoss, couts, lossPrinted, h]

theorem lossPrinted_block_eq (label : String) (m : DefaultLossModel R) (v : R)
    (rest : List (Out R)) :
    lossPrinted label (couts (blockEvents m label (Except.ok v)) ++ rest) = some v := by
  simp [couts_blockEvents, printLoss, couts, lossPrinted, firstReal]

end PrintedLosses

section BaseCorrelation

variable {R : Type} [LinearOrderedField R]

theorem correlSurface_in_grid (sqrt : R → R) (d : Date) (l : R)
    (hd1 : Date.mk 19 March 2015 ≤ d) (hd2 : d ≤ Date.mk 19 March 2019)
    (hl1 : 0.03 ≤ l) (hl2 : l ≤ 0.12) :
    (correlSurface sqrt).correlation (Date.mk 19 March 2014) d l
      = Except.ok (sqrt (factorValue R) * sqrt (factorValue R)) := by
  change (Date.mk 19 March 2015).serialNumber ≤ d.serialNumber at hd1
  change d.serialNumber ≤ (Date.mk 19 March 2019).serialNumber at hd2
  rw [serial_2015] at hd1
  rw [serial_2019] at hd2
  have h1 : (42082 : R) ≤ (d.serialNumber : R) := by exact_mod_cast hd1
  have h2 : (d.serialNumber : R) ≤ 43543 := by exact_mod_cast hd2
  rw [correlSurface_correlation]
  apply bilinear_const
  · push_cast
    rw [le_div_iff₀ (by norm_num)]
    linarith
  · push_cast
    rw [div_le_iff₀ (by norm_num)]
    linarith
  · exact hl1
  · exact hl2

theorem printed_losses_agree (lib : Library R) (h : (tryBody lib).2 = none) :
    ∃ v, lossPrinted "GLHP Expected 10-Yr Losses: " (couts (main lib).2.events) = some v
      ∧ lossPrinted "Base Correlation GLHP Expected 10-Yr Losses: "
          (couts (main lib).2.events) = some v := by
  obtain ⟨_, hr, he⟩ := main_complete lib h
  obtain ⟨v, hv⟩ := first_evaluation_ok lib _ hr
  have hb := evaluation_bc lib
  rw [hv] at hb
  refine ⟨v, ?_, ?_⟩
  · rw [he, completed_events, hv]
    simp only [couts_cons_cout, List.cons_append, List.append_assoc, couts_append,
      lossPrinted_cons_endl, lossPrinted_block_eq]
  · rw [he, completed_events, hb]
    simp only [couts_cons_cout, List.cons_append, List.append_assoc, couts_append,
      lossPrinted_cons_endl]
    rw [lossPrinted_block_ne _ _ _ _ _ (by decide), lossPrinted_block_ne _ _ _ _ _ (by decide),
      lossPrinted_block_ne _ _ _ _ _ (by decide), lossPrinted_block_ne _ _ _ _ _ (by decide),
      lossPrinted_block_ne _ _ _ _ _ (by decide), lossPrinted_block_ne _ _ _ _ _ (by decide),
      lossPrinted_block_ne _ _ _ _ _ (by decide), lossPrinted_block_ne _ _ _ _ _ (by decide),
      lossPrinted_block_eq]

end BaseCorrelation

/-- C7: the base-correlation lookup that `main` triggers stays inside the
surface grid, so it does not fail with `OutOfGridRange`: `calcDate` (19 March
2014 advanced by 60 months on TARGET, i.e. 19 March 2019) lies between the
first tenor node (1 year after the reference date) and the last one (5 years
after it, unadjusted), and the attachment `0.03` and detachment `0.06` of the
basket lie in the loss range `[0.03, 0.12]`. -/
theorem base_correlation_lookup_in_grid {R : Type} [LinearOrderedField R] (sqrt : R → R) :
    todaysDate = some (Date.mk 19 March 2014)
    ∧ calcDate = some (Date.mk 19 March 2019)
    ∧ (correlSurface sqrt).referenceDate (Date.mk 19 March 2014) = some (Date.mk 19 March 2014)
    ∧ (correlSurface sqrt).trancheDates (Date.mk 19 March 2014)
        = some [Date.mk 19 March 2015, Date.mk 19 March 2019]
    ∧ Date.mk 19 March 2015 = (Date.mk 19 March 2014).add ⟨1, TimeUnit.Years⟩
    ∧ Date.mk 19 March 2019 = (Date.mk 19 March 2014).add ⟨5, TimeUnit.Years⟩
    ∧ Date.mk 19 March 2015 ≤ Date.mk 19 March 2019
    ∧ Date.mk 19 March 2019 ≤ Date.mk 19 March 2019
    ∧ (correlSurface sqrt).lossLevel = [0.03, 0.12]
    ∧ (0.03 : R) ≤ (theBskt R (Date.mk 19 March 2014)).attachment
    ∧ (theBskt R (Date.mk 19 March 2014)).attachment ≤ 0.12
    ∧ (0.03 : R) ≤ (theBskt R (Date.mk 19 March 2014)).detachment
    ∧ (theBskt R (Date.mk 19 March 2014)).detachment ≤ 0.12
    ∧ (correlSurface sqrt).correlation (Date.mk 19 March 2014) (Date.mk 19 March 2019)
        (theBskt R (Date.mk 19 March 2014)).detachment
        = Except.ok (sqrt 0.05 * sqrt 0.05)
    ∧ (correlSurface sqrt).correlation (Date.mk 19 March 2014) (Date.mk 19 March 2019)
        (theBskt R (Date.mk 19 March 2014)).attachment
        = Except.ok (sqrt 0.05 * sqrt 0.05) := by
  have a1 : (0.03 : R) ≤ (theBskt R (Date.mk 19 March 2014)).attachment := by
    norm_num [theBskt]
  have a2 : (theBskt R (Date.mk 19 March 2014)).attachment ≤ 0.12 := by norm_num [theBskt]
  have b1 : (0.03 : R) ≤ (theBskt R (Date.mk 19 March 2014)).detachment := by
    norm_num [theBskt]
  have b2 : (theBskt R (Date.mk 19 March 2014)).detachment ≤ 0.12 := by norm_num [theBskt]
  exact ⟨todaysDate_eq, calcDate_eq, correlSurface_referenceDate sqrt,
    correlSurface_trancheDates sqrt, by decide, by decide, by decide, by decide, rfl,
    a1, a2, b1, b2,
    correlSurface_in_grid sqrt _ _ (by decide) (by decide) b1 b2,
    correlSurface_in_grid sqrt _ _ (by decide) (by decide) a1 a2⟩

/-- C4: in `main` each of the four quotes of the base-correlation surface
equals the correlation `rho = fctrsWeights[0][0]^2` given to
`GaussianLHPLossModel`; hence the bilinear interpolation of the surface
returns `rho` at every point of the grid, the base-correlation strategy
evaluates to the same result as the LHP strategy on the basket of `main` at
`calcDate`, and in a run in which nothing throws the value printed for "Base
Correlation GLHP" equals the value printed for "GLHP". -/
theorem base_correlation_reproduces_lhp {R : Type} [LinearOrderedField R] (lib : Library R) :
    lmGLHP lib.sqrt
        = DefaultLossModel.GaussianLHPLossModel
            (entry (fctrsWeights lib.sqrt) 0 0 * entry (fctrsWeights lib.sqrt) 0 0) (recoveries R)
    ∧ entry (fctrsWeights lib.sqrt) 0 0 * entry (fctrsWeights lib.sqrt) 0 0
        = lib.sqrt 0.05 * lib.sqrt 0.05
    ∧ (correlSurface lib.sqrt).correls
        = [[lib.sqrt 0.05 * lib.sqrt 0.05, lib.sqrt 0.05 * lib.sqrt 0.05],
           [lib.sqrt 0.05 * lib.sqrt 0.05, lib.sqrt 0.05 * lib.sqrt 0.05]]
    ∧ (∀ (d : Date) (l : R), Date.mk 19 March 2015 ≤ d → d ≤ Date.mk 19 March 2019 →
        0.03 ≤ l → l ≤ 0.12 →
        (correlSurface lib.sqrt).correlation (Date.mk 19 March 2014) d l
          = Except.ok (lib.sqrt 0.05 * lib.sqrt 0.05))
    ∧ evaluation lib (bcLMG_LHP_Bilin lib.sqrt) = evaluation lib (lmGLHP lib.sqrt)
    ∧ ((tryBody lib).2 = none →
        ∃ v, lossPrinted "GLHP Expected 10-Yr Losses: " (couts (main lib).2.events) = some v
          ∧ lossPrinted "Base Correlation GLHP Expected 10-Yr Losses: "
              (couts (main lib).2.events) = some v) := by
  have he : entry (fctrsWeights lib.sqrt) 0 0 = lib.sqrt 0.05 := entry_fctrsWeights lib.sqrt
  refine ⟨rfl, by rw [he], ?_, ?_, evaluation_bc lib, printed_losses_agree lib⟩
  · simp only [correlSurface, correls, corr1Y, corr2Y, he]
  · intro d l h1 h2 h3 h4
    exact correlSurface_in_grid lib.sqrt d l h1 h2 h3 h4

theorem base_correlation_reproduces_lhp_witness :
    (tryBody (quietLibrary Real.sqrt)).2 = none
    ∧ (correlSurface Real.sqrt).correlation (Date.mk 19 March 2014) (Date.mk 19 March 2015)
        (0.03 : ℝ) = Except.ok (Real.sqrt 0.05 * Real.sqrt 0.05)
    ∧ ∃ v : ℝ, lossPrinted "GLHP Expected 10-Yr Losses: "
          (couts (main (quietLibrary Real.sqrt)).2.events) = some v
        ∧ lossPrinted "Base Correlation GLHP Expected 10-Yr Losses: "
            (couts (main (quietLibrary Real.sqrt)).2.events) = some v :=
  ⟨tryBody_quiet_real,
   (base_correlation_reproduces_lhp (quietLibrary Real.sqrt)).2.2.2.1 (Date.mk 19 March 2015)
     0.03 (by decide) (by decide) (by norm_num) (by norm_num),
   (base_correlation_reproduces_lhp (quietLibrary Real.sqrt)).2.2.2.2.2 tryBody_quiet_real⟩

/-! ### The elapsed-time report -/

theorem wrapInteger_eq (z : Int) (h1 : -2147483648 ≤ z) (h2 : z < 2147483648) :
    wrapInteger z = z := by
  unfold wrapInteger
  norm_num
  omega

theorem toInteger_eq (x : ℚ) (h0 : 0 ≤ x) (h1 : x < 2147483648) : toInteger x = ⌊x⌋ := by
  unfold toInteger
  rw [if_pos h0]
  apply wrapInteger_eq
  · have : (0:Int) ≤ ⌊x⌋ := Int.floor_nonneg.mpr h0
    omega
  · rw [Int.floor_lt]; exact_mod_cast h1

theorem elapsedSplit_eq (s : ℚ) (h0 : 0 ≤ s) (h1 : s < 2147486400) :
    elapsedSplit s
      = (⌊s / 3600⌋, ⌊(s - 3600 * (⌊s / 3600⌋ : ℚ)) / 60⌋,
          s - 3600 * (⌊s / 3600⌋ : ℚ) - 60 * (⌊(s - 3600 * (⌊s / 3600⌋ : ℚ)) / 60⌋ : ℚ)) := by
  have hq0 : (0 : ℚ) ≤ s / 3600 := by positivity
  have hq1 : s / 3600 < 596524 := by rw [div_lt_iff₀ (by norm_num)]; linarith
  have hh0 : (0 : Int) ≤ ⌊s / 3600⌋ := Int.floor_nonneg.mpr hq0
  have hh1 : ⌊s / 3600⌋ < 596524 := by rw [Int.floor_lt]; exact_mod_cast hq1
  have hfl : ((⌊s / 3600⌋ : Int) : ℚ) ≤ s / 3600 := Int.floor_le _
  have hfu : s / 3600 < (⌊s / 3600⌋ : ℚ) + 1 := Int.lt_floor_add_one _
  have e1 : toInteger (s / 3600) = ⌊s / 3600⌋ := toInteger_eq _ hq0 (by linarith)
  have e2 : wrapInteger (⌊s / 3600⌋ * 3600) = ⌊s / 3600⌋ * 3600 :=
    wrapInteger_eq _ (by omega) (by omega)
  have hs0 : 0 ≤ s - 3600 * (⌊s / 3600⌋ : ℚ) := by
    rw [le_div_iff₀ (by norm_num)] at hfl; linarith
  have hs1 : s - 3600 * (⌊s / 3600⌋ : ℚ) < 3600 := by
    rw [div_lt_iff₀ (by norm_num)] at hfu; linarith
  have hm0 : (0 : ℚ) ≤ (s - 3600 * (⌊s / 3600⌋ : ℚ)) / 60 := by positivity
  have hm1 : (s - 3600 * (⌊s / 3600⌋ : ℚ)) / 60 < 60 := by
    rw [div_lt_iff₀ (by norm_num)]; linarith
  have hmm0 : (0 : Int) ≤ ⌊(s - 3600 * (⌊s / 3600⌋ : ℚ)) / 60⌋ := Int.floor_nonneg.mpr hm0
  have hmm1 : ⌊(s - 3600 * (⌊s / 3600⌋ : ℚ)) / 60⌋ < 60 := by
    rw [Int.floor_lt]; exact_mod_cast hm1
  have e3 : toInteger ((s - 3600 * (⌊s / 3600⌋ : ℚ)) / 60)
      = ⌊(s - 3600 * (⌊s / 3600⌋ : ℚ)) / 60⌋ := toInteger_eq _ hm0 (by linarith)
  have e4 : wrapInteger (⌊(s - 3600 * (⌊s / 3600⌋ : ℚ)) / 60⌋ * 60)
      = ⌊(s - 3600 * (⌊s / 3600⌋ : ℚ)) / 60⌋ * 60 := wrapInteger_eq _ (by omega) (by omega)
  have c1 : s - ((wrapInteger (toInteger (s / 3600) * 3600) : Int) : ℚ)
      = s - 3600 * (⌊s / 3600⌋ : ℚ) := by
    rw [e1, e2]; push_cast; ring
  simp only [elapsedSplit]
  rw [c1, e1, e3, e4]
  push_cast
  simp only [Prod.mk.injEq, true_and]
  ring

/-- C10 (amended): for an elapsed time `0 ≤ s < 2147486400` seconds (so that
`hours * 3600` fits a 32-bit `int`), `hours = ⌊s / 3600⌋`,
`minutes = ⌊(s - 3600 * hours) / 60⌋`, the remaining seconds `r` satisfy
`0 ≤ r < 60`, `0 ≤ minutes < 60`, `3600 * hours + 60 * minutes + r = s`; the
hours field is printed iff `hours > 0` and the minutes field iff `hours > 0`
or `minutes > 0`. -/
theorem elapsedSplit_correct (R : Type) (s : ℚ) (h0 : 0 ≤ s) (h1 : s < 2147486400) :
    (elapsedSplit s).1 = ⌊s / 3600⌋
    ∧ (elapsedSplit s).2.1 = ⌊(s - 3600 * ((elapsedSplit s).1 : ℚ)) / 60⌋
    ∧ 0 ≤ (elapsedSplit s).2.2 ∧ (elapsedSplit s).2.2 < 60
    ∧ 0 ≤ (elapsedSplit s).2.1 ∧ (elapsedSplit s).2.1 < 60
    ∧ 3600 * ((elapsedSplit s).1 : ℚ) + 60 * ((elapsedSplit s).2.1 : ℚ)
        + (elapsedSplit s).2.2 = s
    ∧ (Out.text " h " ∈ (report s : List (Out R)) ↔ 0 < (elapsedSplit s).1)
    ∧ (Out.text " m " ∈ (report s : List (Out R))
        ↔ 0 < (elapsedSplit s).1 ∨ 0 < (elapsedSplit s).2.1) := by
  have hrep1 : (Out.text " h " ∈ (report s : List (Out R)) ↔ 0 < (elapsedSplit s).1) := by
    unfold report
    by_cases hh : (elapsedSplit s).1 > 0 <;> by_cases hm : (elapsedSplit s).2.1 > 0 <;>
      simp [hh, hm]
  have hrep2 : (Out.text " m " ∈ (report s : List (Out R))
        ↔ 0 < (elapsedSplit s).1 ∨ 0 < (elapsedSplit s).2.1) := by
    unfold report
    by_cases hh : (elapsedSplit s).1 > 0 <;> by_cases hm : (elapsedSplit s).2.1 > 0 <;>
      simp [hh, hm]
  refine ⟨?_, ?_, ?_, ?_, ?_, ?_, ?_, hrep1, hrep2⟩
  all_goals rw [elapsedSplit_eq s h0 h1]
  all_goals simp only []
  · exact sub_nonneg.mpr (by
      have := Int.floor_le ((s - 3600 * (⌊s / 3600⌋ : ℚ)) / 60)
      rw [le_div_iff₀ (by norm_num)] at this; linarith)
  · have := Int.lt_floor_add_one ((s - 3600 * (⌊s / 3600⌋ : ℚ)) / 60)
    rw [div_lt_iff₀ (by norm_num)] at this; linarith
  · apply Int.floor_nonneg.mpr
    have := Int.floor_le (s / 3600)
    rw [le_div_iff₀ (by norm_num)] at this
    apply div_nonneg _ (by norm_num); linarith
  · rw [Int.floor_lt]
    have := Int.lt_floor_add_one (s / 3600)
    rw [div_lt_iff₀ (by norm_num)] at this
    rw [div_lt_iff₀ (by norm_num)]; push_cast; linarith
  · ring

theorem elapsedSplit_correct_witness :
    (elapsedSplit 3725.5).1 = ⌊(3725.5 : ℚ) / 3600⌋
    ∧ (elapsedSplit 3725.5).2.1 = ⌊((3725.5 : ℚ) - 3600 * ((elapsedSplit 3725.5).1 : ℚ)) / 60⌋
    ∧ 0 ≤ (elapsedSplit 3725.5).2.2 ∧ (elapsedSplit 3725.5).2.2 < 60
    ∧ 0 ≤ (elapsedSplit 3725.5).2.1 ∧ (elapsedSplit 3725.5).2.1 < 60
    ∧ 3600 * ((elapsedSplit 3725.5).1 : ℚ) + 60 * ((elapsedSplit 3725.5).2.1 : ℚ)
        + (elapsedSplit 3725.5).2.2 = 3725.5
    ∧ (Out.text " h " ∈ (report 3725.5 : List (Out ℚ)) ↔ 0 < (elapsedSplit 3725.5).1)
    ∧ (Out.text " m " ∈ (report 3725.5 : List (Out ℚ))
        ↔ 0 < (elapsedSplit 3725.5).1 ∨ 0 < (elapsedSplit 3725.5).2.1) :=
  elapsedSplit_correct ℚ 3725.5 (by norm_num) (by norm_num)

theorem elapsedSplit_overflow :
    elapsedSplit 2147486400 = (596524, 71582788, 4294967312) := by
  have e1 : toInteger ((2147486400 : ℚ) / 3600) = 596524 := by
    rw [toInteger_eq _ (by norm_num) (by norm_num)]
    rw [Int.floor_eq_iff]; norm_num
  have e2 : wrapInteger (596524 * 3600) = -2147480896 := by
    unfold wrapInteger; norm_num
  have e3 : toInteger (((2147486400 : ℚ) - ((-2147480896 : Int) : ℚ)) / 60) = 71582788 := by
    rw [toInteger_eq _ (by norm_num) (by norm_num)]
    rw [Int.floor_eq_iff]; norm_num
  have e4 : wrapInteger (71582788 * 60) = -16 := by
    unfold wrapInteger; norm_num
  simp only [elapsedSplit, e1, e2, e3, e4]
  norm_num

/-- C10 (as stated) fails at `s = 2147486400` seconds: there `hours = 596524`,
the 32-bit product `hours * 3600` overflows, and the split is
`(596524, 71582788, 4294967312)`, whose minutes and seconds are not below 60
and do not add up to `s`. -/
theorem elapsedSplit_claim_fails :
    ¬ ((0 : ℚ) ≤ 2147486400 →
        (elapsedSplit 2147486400).1 = ⌊(2147486400 : ℚ) / 3600⌋
        ∧ (elapsedSplit 2147486400).2.1
            = ⌊((2147486400 : ℚ) - 3600 * ((elapsedSplit 2147486400).1 : ℚ)) / 60⌋
        ∧ 0 ≤ (elapsedSplit 2147486400).2.2 ∧ (elapsedSplit 2147486400).2.2 < 60
        ∧ 0 ≤ (elapsedSplit 2147486400).2.1 ∧ (elapsedSplit 2147486400).2.1 < 60
        ∧ 3600 * ((elapsedSplit 2147486400).1 : ℚ) + 60 * ((elapsedSplit 2147486400).2.1 : ℚ)
            + (elapsedSplit 2147486400).2.2 = 2147486400) := by
  intro h
  have h4 := (h (by norm_num)).2.2.2.1
  rw [elapsedSplit_overflow] at h4
  norm_num at h4
